import Mathlib

/-!
# Verification of `plotly_formatter.formatter.PlotlyFormatter`

A shallow embedding of `src/plotly_formatter/formatter.py`.

Modelling choices, all driven by the source:

* A Python `dict` used as a font mapping becomes `FontDict`, an
  insertion-ordered association list.  `dget` is `d[k]` (first match),
  `dset` is `d[k] = v` (replace in place, else append) — exactly the
  observable behaviour of a Python dict with unique keys.
* `__init__` stores caller-supplied dicts *by reference* and then mutates
  them (`self.subtitle_font["size"] = ...`).  To capture this the model
  threads an explicit store `Store = List FontDict`; a Python object
  reference is an index into the store.  Caller-supplied font options are
  references; absent options allocate the fresh default dict built in the
  `defaults` literal, exactly as each `__init__` call does.
* Font sizes are integers (the spec's data model: `{size: integer}`);
  the ratios are exact rationals standing for the Python floats, and
  Python's `int(x)` on the product is `truncMul`: truncation toward zero
  (NOT `floor`; they differ on negative products).  On every value used
  in the claims the rational computation agrees with the float one.
* A read of a missing or non-integer `"size"` entry is a Python
  `KeyError`/`TypeError`; `init` returns `none` there, as `__init__`
  raises.
* `standardize` only assigns into the figure: plotly copies a dict that
  is assigned to a property, so the figure holds `FontDict` values, and
  neither `self` nor the store is written.  The model returns the
  (unchanged) formatter and store explicitly so that this is a theorem
  rather than a typing accident.  The `title_x` line is commented out in
  the source and is therefore *not* applied here either.
* Each figure record carries a `rest` field standing for the properties
  `standardize` never touches.
-/

/-- A value stored in a font dict: an integer (a size) or a string
(a family or a colour). -/
inductive FVal where
  | int (n : ℤ)
  | str (s : String)
  deriving DecidableEq, Repr

/-- A Python dict used as a font mapping: insertion-ordered association list. -/
abbrev FontDict := List (String × FVal)

/-- `d[k]` for a Python dict: the first entry with key `k`. -/
def dget : FontDict → String → Option FVal
  | [], _ => none
  | p :: t, k => if p.1 = k then some p.2 else dget t k

/-- `d[k] = v` for a Python dict: replace the entry in place, else append. -/
def dset : FontDict → String → FVal → FontDict
  | [], k, v => [(k, v)]
  | p :: t, k, v => if p.1 = k then (k, v) :: t else p :: dset t k v

/-- The key list of a dict, in order. -/
def dkeys (d : FontDict) : List String := d.map Prod.fst

/-- The heap of font dicts: a Python object reference is an index. -/
abbrev Store := List FontDict

/-- `d["size"]` when it is an integer, else `none` (Python would raise). -/
def getIntSize (d : FontDict) : Option ℤ :=
  match dget d "size" with
  | some (FVal.int n) => some n
  | _ => none

/-- Read `σ[r]["size"]` as an integer. -/
def readSizeInt (σ : Store) (r : ℕ) : Option ℤ :=
  (σ[r]?).bind getIntSize

/-- `σ[r]["size"] = n` — a no-op on a dangling reference (impossible in
Python, where a supplied dict always exists). -/
def writeSize (σ : Store) (r : ℕ) (n : ℤ) : Store :=
  match σ[r]? with
  | some d => σ.set r (dset d "size" (FVal.int n))
  | none => σ

/-- Dereference, defaulting to the empty dict (total version used by
`standardize`, where the formatter's references are always live). -/
def derefD (σ : Store) (r : ℕ) : FontDict := (σ[r]?).getD []

/-- Python `int(s * q)` for an integer size `s` and an exact rational
ratio `q`: truncation toward zero of `s·q`, computed as truncating
integer division (`q.den` is positive), which keeps the definition
kernel-computable. -/
def truncMul (s : ℤ) (q : ℚ) : ℤ := (s * q.num).tdiv (q.den : ℤ)

/-- The `title_font` default of the `defaults` literal (formatter.py line 49). -/
def defaultTitleFont : FontDict :=
  [("size", FVal.int 24), ("family", FVal.str "Arial"), ("color", FVal.str "black")]

/-- The default base dict of the four derived fonts (formatter.py lines 50-57). -/
def defaultAuxFont : FontDict :=
  [("family", FVal.str "Arial"), ("color", FVal.str "black")]

/-- The keyword arguments of `PlotlyFormatter.__init__`: each recognised key
is either supplied (`some`) or absent; font options are references to
caller-owned dicts.  `extra` holds the unrecognised keys, which the
`defaults`-driven loop never reads. -/
structure Options where
  title_font : Option ℕ := none
  subtitle_font : Option ℕ := none
  subtitle_ratio : Option ℚ := none
  axis_title_font : Option ℕ := none
  axis_title_ratio : Option ℚ := none
  tick_font : Option ℕ := none
  tick_font_ratio : Option ℚ := none
  legend_font : Option ℕ := none
  legend_font_ratio : Option ℚ := none
  showgrid : Option Bool := none
  gridcolor : Option String := none
  gridwidth : Option ℤ := none
  template : Option String := none
  title_x : Option ℚ := none
  width : Option ℤ := none
  height : Option ℤ := none
  extra : List (String × FVal) := []
  deriving DecidableEq, Repr

/-- Effective `subtitle_ratio` (default 0.95). -/
def rq1 (o : Options) : ℚ := o.subtitle_ratio.getD (mkRat 19 20)

/-- Effective `axis_title_ratio` (default 0.9). -/
def rq2 (o : Options) : ℚ := o.axis_title_ratio.getD (mkRat 9 10)

/-- Effective `tick_font_ratio` (default 0.9). -/
def rq3 (o : Options) : ℚ := o.tick_font_ratio.getD (mkRat 9 10)

/-- Effective `legend_font_ratio` (default 0.9). -/
def rq4 (o : Options) : ℚ := o.legend_font_ratio.getD (mkRat 9 10)

/-- `kwargs.get(key, default)` for a font key: the caller's reference when
supplied, else a fresh allocation of the default dict (the dict literal
built inside `__init__`). -/
def allocFont (o : Option ℕ) (d : FontDict) (σ : Store) : ℕ × Store :=
  match o with
  | some r => (r, σ)
  | none => (σ.length, σ ++ [d])

/-- The five font references and the store after the `setattr` loop. -/
structure AllocOut where
  tr : ℕ
  sr : ℕ
  ar : ℕ
  kr : ℕ
  lr : ℕ
  st : Store
  deriving DecidableEq, Repr

/-- Resolve the five font options in the order of the `defaults` literal. -/
def allocAll (o : Options) (σ0 : Store) : AllocOut :=
  let p1 := allocFont o.title_font defaultTitleFont σ0
  let p2 := allocFont o.subtitle_font defaultAuxFont p1.2
  let p3 := allocFont o.axis_title_font defaultAuxFont p2.2
  let p4 := allocFont o.tick_font defaultAuxFont p3.2
  let p5 := allocFont o.legend_font defaultAuxFont p4.2
  ⟨p1.1, p2.1, p3.1, p4.1, p5.1, p5.2⟩

/-- Lines 70-73 of formatter.py, one store operation per line, reads and
writes in source order:

    self.subtitle_font["size"]   = int(self.title_font["size"] * self.subtitle_ratio)
    self.axis_title_font["size"] = int(self.title_font["size"] * self.axis_title_ratio)
    self.tick_font["size"]       = int(self.axis_title_font["size"] * self.tick_font_ratio)
    self.legend_font["size"]     = int(self.title_font["size"] * self.legend_font_ratio)

`none` is the `KeyError`/`TypeError` Python raises when a read fails. -/
def deriveSizes (tr sr ar kr lr : ℕ) (q1 q2 q3 q4 : ℚ) (σ : Store) : Option Store :=
  match readSizeInt σ tr with
  | none => none
  | some s0 =>
    let σ6 := writeSize σ sr (truncMul s0 q1)
    match readSizeInt σ6 tr with
    | none => none
    | some s1 =>
      let σ7 := writeSize σ6 ar (truncMul s1 q2)
      match readSizeInt σ7 ar with
      | none => none
      | some a2 =>
        let σ8 := writeSize σ7 kr (truncMul a2 q3)
        match readSizeInt σ8 tr with
        | none => none
        | some s3 => some (writeSize σ8 lr (truncMul s3 q4))

/-- The formatter object: five references into the store plus the scalar
attributes, mirroring the attributes `__init__` sets. -/
structure PlotlyFormatter where
  title_font : ℕ
  subtitle_font : ℕ
  axis_title_font : ℕ
  tick_font : ℕ
  legend_font : ℕ
  subtitle_ratio : ℚ
  axis_title_ratio : ℚ
  tick_font_ratio : ℚ
  legend_font_ratio : ℚ
  showgrid : Bool
  gridcolor : String
  gridwidth : ℤ
  template : String
  title_x : ℚ
  width : ℤ
  height : ℤ
  deriving DecidableEq, Repr

/-- The attribute values the `setattr` loop produces (scalar defaults from
the `defaults` literal, lines 48-66). -/
def mkFormatter (o : Options) (a : AllocOut) : PlotlyFormatter :=
  ⟨a.tr, a.sr, a.ar, a.kr, a.lr,
   rq1 o, rq2 o, rq3 o, rq4 o,
   o.showgrid.getD true, o.gridcolor.getD "LightGray", o.gridwidth.getD 1,
   o.template.getD "simple_white", o.title_x.getD (mkRat 1 2),
   o.width.getD 3200, o.height.getD 800⟩

/-- `PlotlyFormatter.__init__`: resolve options, then derive the four
sizes.  `none` is an uncaught exception. -/
def init (o : Options) (σ0 : Store) : Option (PlotlyFormatter × Store) :=
  let a := allocAll o σ0
  match deriveSizes a.tr a.sr a.ar a.kr a.lr (rq1 o) (rq2 o) (rq3 o) (rq4 o) a.st with
  | none => none
  | some σf => some (mkFormatter o a, σf)

/-- One plotly axis, reduced to the properties `update_yaxes`/`update_xaxes`
are called with; `rest` stands for every other axis property. -/
structure Axis where
  title_font : FontDict
  tickfont : FontDict
  showgrid : Bool
  gridcolor : String
  gridwidth : ℤ
  rest : String
  deriving DecidableEq, Repr

/-- One layout text element of `fig.layout.annotations`: its font and
(`rest`) everything else about it. -/
structure Ann where
  font : FontDict
  rest : String
  deriving DecidableEq, Repr

/-- The figure state `standardize` can observe or mutate.  `anns = none`
models a layout whose `annotations` property is unset, so that the
`if "annotations" in fig["layout"]` guard is false.  `title_x = none`
models an unset `layout.title.x`.  `rest` stands for everything else
(traces, other layout properties). -/
structure Fig where
  yaxes : List Axis
  xaxes : List Axis
  title_font : FontDict
  title_x : Option ℚ
  legend_font : FontDict
  template : String
  height : ℤ
  width : ℤ
  anns : Option (List Ann)
  rest : String
  deriving DecidableEq, Repr

/-- The axis update of `fig.update_yaxes(...)` / `fig.update_xaxes(...)`:
both calls pass the same five keyword arguments (plotly copies the dicts). -/
def styleAxis (fmt : PlotlyFormatter) (σ : Store) (a : Axis) : Axis :=
  ⟨derefD σ fmt.axis_title_font, derefD σ fmt.tick_font,
   fmt.showgrid, fmt.gridcolor, fmt.gridwidth, a.rest⟩

/-- `annotation['font'] = self.subtitle_font` (plotly stores a copy). -/
def setAnnFont (d : FontDict) (a : Ann) : Ann := ⟨d, a.rest⟩

/-- `PlotlyFormatter.standardize(fig)`, lines 75-125: update both axis
lists, the layout (title font, legend font, template, height, width —
`title_x` is commented out in the source and not applied), and, when the
layout has an `annotations` property, every element's font.  The method
assigns only into the figure, so the formatter and the store come back
unchanged; returning them makes that a provable frame property. -/
def standardize (fmt : PlotlyFormatter) (σ : Store) (fig : Fig) :
    PlotlyFormatter × Store × Fig :=
  (fmt, σ,
    { yaxes := fig.yaxes.map (styleAxis fmt σ)
      xaxes := fig.xaxes.map (styleAxis fmt σ)
      title_font := derefD σ fmt.title_font
      title_x := fig.title_x
      legend_font := derefD σ fmt.legend_font
      template := fmt.template
      height := fmt.height
      width := fmt.width
      anns := fig.anns.map (List.map (setAnnFont (derefD σ fmt.subtitle_font)))
      rest := fig.rest })

/-- The five stored font sizes of a construction result, for stating
concrete claims. -/
def allSizes (x : Option (PlotlyFormatter × Store)) :
    Option (Option ℤ × Option ℤ × Option ℤ × Option ℤ × Option ℤ) :=
  match x with
  | none => none
  | some (f, σ) =>
    some (readSizeInt σ f.title_font, readSizeInt σ f.subtitle_font,
          readSizeInt σ f.axis_title_font, readSizeInt σ f.tick_font,
          readSizeInt σ f.legend_font)

/-- The references of the supplied font options. -/
def suppliedFontRefs (o : Options) : List ℕ :=
  ([o.title_font, o.subtitle_font, o.axis_title_font, o.tick_font,
    o.legend_font]).filterMap id

/-- Every supplied font reference is live — true of every Python call,
where a supplied dict is an existing object. -/
abbrev ValidOpts (o : Options) (σ : Store) : Prop :=
  ∀ r ∈ suppliedFontRefs o, r < σ.length

/-- The effective dict behind a font option: the supplied dict when
present, else the default one. -/
def effFont (o : Option ℕ) (d : FontDict) (σ0 : Store) : Option FontDict :=
  match o with
  | some r => σ0[r]?
  | none => some d

/-- The integer `"size"` of the effective title font (supplied dict, else
the default), read before any derivation write — the value line 70 sees. -/
def titleSizeInt (o : Options) (σ0 : Store) : Option ℤ :=
  (effFont o.title_font defaultTitleFont σ0).bind getIntSize

/-- A dict reachable from `d` by `d["size"] = <int>` assignments. -/
def Reach (d d' : FontDict) : Prop :=
  d' = d ∨ ∃ n : ℤ, d' = dset d "size" (FVal.int n)

/-- The dict stored at `r` after a construction attempt (for concrete
claims about a caller's mapping). -/
def storeAt (x : Option (PlotlyFormatter × Store)) (r : ℕ) : Option FontDict :=
  match x with
  | none => none
  | some p => p.2[r]?

/-- `PlotlyFormatter()` — no options at all. -/
def optsNone : Options := {}

/-- The default aux dict after its derived size was appended. -/
def fontAux (n : ℤ) : FontDict :=
  [("family", FVal.str "Arial"), ("color", FVal.str "black"), ("size", FVal.int n)]

/-- The formatter produced by default construction on the empty store. -/
def fmt0 : PlotlyFormatter :=
  ⟨0, 1, 2, 3, 4, mkRat 19 20, mkRat 9 10, mkRat 9 10, mkRat 9 10,
   true, "LightGray", 1, "simple_white", mkRat 1 2, 3200, 800⟩

/-- The store produced by default construction on the empty store. -/
def storeFin0 : Store :=
  [defaultTitleFont, fontAux 22, fontAux 21, fontAux 18, fontAux 21]

/-- `PlotlyFormatter(title_font=d, subtitle_font=d, subtitle_ratio=0.5)`
with `d = {"size": -5}` — the *same* dict passed for two options, and a
negative size. -/
def c1opts : Options :=
  { title_font := some 0, subtitle_font := some 0,
    subtitle_ratio := some (mkRat 1 2) }

/-- The heap for `c1opts`: one dict, `{"size": -5}`. -/
def c1store : Store := [[("size", FVal.int (-5))]]

/-- `PlotlyFormatter(subtitle_font=d, tick_font=d)` with
`d = {"family": "Arial"}` — the same dict for two derived fonts. -/
def c3opts : Options := { subtitle_font := some 0, tick_font := some 0 }

/-- The heap for `c3opts`. -/
def c3store : Store := [[("family", FVal.str "Arial")]]

/-- `PlotlyFormatter(title_font={"family": "Arial"})` — a title font
without a `size` entry. -/
def c7opts : Options := { title_font := some 0 }

/-- The heap for `c7opts`. -/
def c7store : Store := [[("family", FVal.str "Arial")]]

/-- `PlotlyFormatter(tick_font=d, legend_font=d)` with `d = {"size": 5}`. -/
def c8opts : Options := { tick_font := some 0, legend_font := some 0 }

/-- The heap for `c8opts`. -/
def c8store : Store := [[("size", FVal.int 5)]]

/-- `PlotlyFormatter(subtitle_font=d, tick_font=d)` with
`d = {"size": 99, "color": "red"}`. -/
def c10opts : Options := { subtitle_font := some 0, tick_font := some 0 }

/-- The heap for `c10opts`. -/
def c10store : Store := [[("size", FVal.int 99), ("color", FVal.str "red")]]

/-- `PlotlyFormatter(tick_font={"size": 5, "color": "blue"})`. -/
def w8opts : Options := { tick_font := some 0 }

/-- The heap for `w8opts`. -/
def w8store : Store := [[("size", FVal.int 5), ("color", FVal.str "blue")]]

/-- The formatter constructed from `w8opts`. -/
def w8fmt : PlotlyFormatter :=
  ⟨1, 2, 3, 0, 4, mkRat 19 20, mkRat 9 10, mkRat 9 10, mkRat 9 10,
   true, "LightGray", 1, "simple_white", mkRat 1 2, 3200, 800⟩

/-- The heap after constructing from `w8opts`. -/
def w8fin : Store :=
  [[("size", FVal.int 18), ("color", FVal.str "blue")],
   defaultTitleFont, fontAux 22, fontAux 21, fontAux 21]

/-- `PlotlyFormatter(title_font={"size": 30})`. -/
def w9opts : Options := { title_font := some 0 }

/-- The heap for `w9opts`. -/
def w9store : Store := [[("size", FVal.int 30)]]

/-- The heap after constructing from `w9opts`. -/
def w9fin : Store :=
  [[("size", FVal.int 30)], fontAux 28, fontAux 27, fontAux 24, fontAux 27]

/-- `PlotlyFormatter(subtitle_font={"size": 7, "family": "X"})`. -/
def w10opts : Options := { subtitle_font := some 0 }

/-- The heap for `w10opts`. -/
def w10store : Store := [[("size", FVal.int 7), ("family", FVal.str "X")]]

/-- The formatter constructed from `w10opts`. -/
def w10fmt : PlotlyFormatter :=
  ⟨1, 0, 2, 3, 4, mkRat 19 20, mkRat 9 10, mkRat 9 10, mkRat 9 10,
   true, "LightGray", 1, "simple_white", mkRat 1 2, 3200, 800⟩

/-- The heap after constructing from `w10opts`. -/
def w10fin : Store :=
  [[("size", FVal.int 22), ("family", FVal.str "X")],
   defaultTitleFont, fontAux 21, fontAux 18, fontAux 21]

/-- The two formatters of the `title_x` interference check (0.25, 0.75). -/
def w6f1 : PlotlyFormatter :=
  ⟨0, 1, 2, 3, 4, mkRat 19 20, mkRat 9 10, mkRat 9 10, mkRat 9 10,
   true, "LightGray", 1, "simple_white", mkRat 1 4, 3200, 800⟩

/-- Companion to `w6f1` with `title_x = 0.75`. -/
def w6f2 : PlotlyFormatter :=
  ⟨0, 1, 2, 3, 4, mkRat 19 20, mkRat 9 10, mkRat 9 10, mkRat 9 10,
   true, "LightGray", 1, "simple_white", mkRat 3 4, 3200, 800⟩

/-- A small concrete figure: one y-axis, a set `title.x`, and two layout
text elements. -/
def fig1 : Fig :=
  { yaxes := [⟨[("x", FVal.int 1)], [], false, "w", 0, "y1"⟩]
    xaxes := [⟨[], [], true, "g", 2, "x1"⟩]
    title_font := [("size", FVal.int 7)]
    title_x := some (mkRat 1 3)
    legend_font := []
    template := "none"
    height := 10
    width := 20
    anns := some [⟨[("k", FVal.str "v")], "a1"⟩, ⟨[], "a2"⟩]
    rest := "R" }

/-! ## Dict lemmas -/

theorem dget_dset_self (d : FontDict) (k : String) (v : FVal) :
    dget (dset d k v) k = some v := by
  induction d with
  | nil => simp [dget, dset]
  | cons p t ih =>
    by_cases h : p.1 = k
    · simp [dget, dset, h]
    · simp [dget, dset, h, ih]

theorem dget_dset_ne (d : FontDict) (k k' : String) (v : FVal) (h : k' ≠ k) :
    dget (dset d k v) k' = dget d k' := by
  induction d with
  | nil => simp only [dset, dget, if_neg (fun e : k = k' => h e.symm)]
  | cons p t ih =>
    by_cases hp : p.1 = k
    · subst hp
      simp only [dset, if_pos rfl, dget, if_neg (fun e : p.1 = k' => h e.symm)]
    · simp only [dset, if_neg hp, dget]
      by_cases hk : p.1 = k' <;> simp [hk, ih]

theorem dset_dset_self (d : FontDict) (k : String) (v w : FVal) :
    dset (dset d k v) k w = dset d k w := by
  induction d with
  | nil => simp [dset]
  | cons p t ih =>
    by_cases h : p.1 = k
    · simp [dset, h]
    · simp [dset, h, ih]

theorem dkeys_dset_mem (d : FontDict) (k : String) (v : FVal) (h : k ∈ dkeys d) :
    dkeys (dset d k v) = dkeys d := by
  induction d with
  | nil => simp [dkeys] at h
  | cons p t ih =>
    by_cases hp : p.1 = k
    · simp [dset, hp, dkeys]
    · have h' : k ∈ dkeys t := by
        rcases (by simpa [dkeys] using h : k = p.1 ∨ k ∈ List.map Prod.fst t) with h1 | h2
        · exact absurd h1.symm hp
        · exact h2
      simp only [dset, if_neg hp, dkeys, List.map_cons]
      rw [show List.map Prod.fst (dset t k v) = List.map Prod.fst t from ih h']

theorem dkeys_dset_not_mem (d : FontDict) (k : String) (v : FVal) (h : k ∉ dkeys d) :
    dkeys (dset d k v) = dkeys d ++ [k] := by
  induction d with
  | nil => simp [dset, dkeys]
  | cons p t ih =>
    simp only [dkeys, List.map_cons, List.mem_cons, not_or] at h
    have hp : ¬p.1 = k := fun e => h.1 e.symm
    simp only [dset, if_neg hp, dkeys, List.map_cons, List.cons_append,
      List.cons.injEq, true_and]
    exact ih h.2

theorem mem_dkeys_of_dget (d : FontDict) (k : String) (v : FVal)
    (h : dget d k = some v) : k ∈ dkeys d := by
  induction d with
  | nil => simp [dget] at h
  | cons p t ih =>
    simp only [dget] at h
    by_cases hp : p.1 = k
    · simp only [dkeys, List.map_cons, List.mem_cons]
      exact Or.inl hp.symm
    · rw [if_neg hp] at h
      simp only [dkeys, List.map_cons, List.mem_cons]
      exact Or.inr (ih h)

theorem getIntSize_dset_size (d : FontDict) (n : ℤ) :
    getIntSize (dset d "size" (FVal.int n)) = some n := by
  simp [getIntSize, dget_dset_self]

theorem dget_dset_size_ne (d : FontDict) (k : String) (n : ℤ) (h : k ≠ "size") :
    dget (dset d "size" (FVal.int n)) k = dget d k :=
  dget_dset_ne d "size" k (FVal.int n) h

/-! ## Store lemmas -/

theorem length_writeSize (σ : Store) (r : ℕ) (n : ℤ) :
    (writeSize σ r n).length = σ.length := by
  unfold writeSize
  cases h : σ[r]? <;> simp

theorem getq_writeSize_ne (σ : Store) (r t : ℕ) (n : ℤ) (h : t ≠ r) :
    (writeSize σ r n)[t]? = σ[t]? := by
  unfold writeSize
  cases h2 : σ[r]?
  · rfl
  · exact List.getElem?_set_ne fun e => h e.symm

theorem getq_writeSize_self (σ : Store) (r : ℕ) (n : ℤ) (d : FontDict)
    (h : σ[r]? = some d) :
    (writeSize σ r n)[r]? = some (dset d "size" (FVal.int n)) := by
  unfold writeSize
  rw [h]
  exact List.getElem?_set_eq_of_lt _ (List.getElem?_eq_some_iff.mp h).1

theorem getq_writeSize_none (σ : Store) (r : ℕ) (n : ℤ)
    (h : σ[r]? = none) : writeSize σ r n = σ := by
  unfold writeSize
  rw [h]

theorem readSizeInt_writeSize_self (σ : Store) (r : ℕ) (n : ℤ) (d : FontDict)
    (h : σ[r]? = some d) :
    readSizeInt (writeSize σ r n) r = some n := by
  rw [readSizeInt, getq_writeSize_self σ r n d h]
  simp [getIntSize_dset_size]

theorem readSizeInt_writeSize_ne (σ : Store) (r t : ℕ) (n : ℤ) (h : t ≠ r) :
    readSizeInt (writeSize σ r n) t = readSizeInt σ t := by
  rw [readSizeInt, getq_writeSize_ne σ r t n h, readSizeInt]

/-- After any `d["size"] = <int>` store write the dict at `t` still has an
integer size if it had one. -/
theorem readSizeInt_writeSize_isSome (σ : Store) (r t : ℕ) (n : ℤ)
    (h : (readSizeInt σ t).isSome) :
    (readSizeInt (writeSize σ r n) t).isSome := by
  by_cases he : t = r
  · subst he
    rw [readSizeInt, Option.isSome_iff_exists] at h
    obtain ⟨s, hs⟩ := h
    obtain ⟨d, hd, _⟩ : ∃ d, σ[t]? = some d ∧ getIntSize d = some s := by
      cases hq : σ[t]? with
      | none => rw [hq] at hs; simp at hs
      | some d => rw [hq] at hs; exact ⟨d, rfl, by simpa using hs⟩
    rw [readSizeInt_writeSize_self σ t n d hd]
    rfl
  · rw [readSizeInt_writeSize_ne σ r t n he]
    exact h

/-! ## Allocation lemmas -/

theorem allocFont_get_low (o : Option ℕ) (d : FontDict) (σ : Store) (t : ℕ)
    (ht : t < σ.length) : ((allocFont o d σ).2)[t]? = σ[t]? := by
  cases o with
  | some r => rfl
  | none => exact List.getElem?_append_left ht

theorem allocFont_length_le (o : Option ℕ) (d : FontDict) (σ : Store) :
    σ.length ≤ (allocFont o d σ).2.length := by
  cases o <;> simp [allocFont]

theorem allocAll_st_len (o : Options) (σ0 : Store) :
    σ0.length ≤ (allocAll o σ0).st.length := by
  simp only [allocAll]
  calc σ0.length
      ≤ (allocFont o.title_font defaultTitleFont σ0).2.length :=
        allocFont_length_le _ _ _
    _ ≤ (allocFont o.subtitle_font defaultAuxFont
          (allocFont o.title_font defaultTitleFont σ0).2).2.length :=
        allocFont_length_le _ _ _
    _ ≤ _ := allocFont_length_le _ _ _
    _ ≤ _ := allocFont_length_le _ _ _
    _ ≤ _ := allocFont_length_le _ _ _

theorem allocAll_st_low (o : Options) (σ0 : Store) (t : ℕ) (ht : t < σ0.length) :
    (allocAll o σ0).st[t]? = σ0[t]? := by
  have h1 : t < (allocFont o.title_font defaultTitleFont σ0).2.length :=
    lt_of_lt_of_le ht (allocFont_length_le _ _ _)
  have h2 : t < (allocFont o.subtitle_font defaultAuxFont
      (allocFont o.title_font defaultTitleFont σ0).2).2.length :=
    lt_of_lt_of_le h1 (allocFont_length_le _ _ _)
  have h3 : t < (allocFont o.axis_title_font defaultAuxFont
      (allocFont o.subtitle_font defaultAuxFont
        (allocFont o.title_font defaultTitleFont σ0).2).2).2.length :=
    lt_of_lt_of_le h2 (allocFont_length_le _ _ _)
  have h4 : t < (allocFont o.tick_font defaultAuxFont
      (allocFont o.axis_title_font defaultAuxFont
        (allocFont o.subtitle_font defaultAuxFont
          (allocFont o.title_font defaultTitleFont σ0).2).2).2).2.length :=
    lt_of_lt_of_le h3 (allocFont_length_le _ _ _)
  simp only [allocAll]
  rw [allocFont_get_low _ _ _ _ h4, allocFont_get_low _ _ _ _ h3,
    allocFont_get_low _ _ _ _ h2, allocFont_get_low _ _ _ _ h1,
    allocFont_get_low _ _ _ _ ht]

theorem valid_title (o : Options) (σ : Store) (hv : ValidOpts o σ) (r : ℕ)
    (hr : o.title_font = some r) : r < σ.length :=
  hv r (by simp [suppliedFontRefs, hr])

theorem valid_subtitle (o : Options) (σ : Store) (hv : ValidOpts o σ) (r : ℕ)
    (hr : o.subtitle_font = some r) : r < σ.length :=
  hv r (by simp [suppliedFontRefs, hr])

theorem valid_axis (o : Options) (σ : Store) (hv : ValidOpts o σ) (r : ℕ)
    (hr : o.axis_title_font = some r) : r < σ.length :=
  hv r (by simp [suppliedFontRefs, hr])

theorem valid_tick (o : Options) (σ : Store) (hv : ValidOpts o σ) (r : ℕ)
    (hr : o.tick_font = some r) : r < σ.length :=
  hv r (by simp [suppliedFontRefs, hr])

theorem valid_legend (o : Options) (σ : Store) (hv : ValidOpts o σ) (r : ℕ)
    (hr : o.legend_font = some r) : r < σ.length :=
  hv r (by simp [suppliedFontRefs, hr])

/-! ## Inverting `init` -/

theorem init_inv (o : Options) (σ0 : Store) (f : PlotlyFormatter) (σf : Store)
    (h : init o σ0 = some (f, σf)) :
    deriveSizes (allocAll o σ0).tr (allocAll o σ0).sr (allocAll o σ0).ar
      (allocAll o σ0).kr (allocAll o σ0).lr
      (rq1 o) (rq2 o) (rq3 o) (rq4 o) (allocAll o σ0).st = some σf ∧
    f = mkFormatter o (allocAll o σ0) := by
  simp only [init] at h
  cases hd : deriveSizes (allocAll o σ0).tr (allocAll o σ0).sr (allocAll o σ0).ar
      (allocAll o σ0).kr (allocAll o σ0).lr
      (rq1 o) (rq2 o) (rq3 o) (rq4 o) (allocAll o σ0).st with
  | none => rw [hd] at h; exact absurd h (by simp)
  | some σ' =>
    rw [hd] at h
    simp only [Option.some.injEq, Prod.mk.injEq] at h
    exact ⟨by rw [h.2], h.1.symm⟩

/-! ## The effect of the four derivation lines on each dict -/

theorem deriveSizes_spec (tr sr ar kr lr : ℕ) (q1 q2 q3 q4 : ℚ) (σ σ' : Store)
    (td : FontDict) (s : ℤ)
    (h : deriveSizes tr sr ar kr lr q1 q2 q3 q4 σ = some σ')
    (ht : σ[tr]? = some td) (hs : getIntSize td = some s)
    (h21 : sr ≠ tr) (h31 : ar ≠ tr) (h41 : kr ≠ tr) (h51 : lr ≠ tr)
    (h32 : ar ≠ sr) (h42 : kr ≠ sr) (h52 : lr ≠ sr)
    (h43 : kr ≠ ar) (h53 : lr ≠ ar) (h54 : lr ≠ kr) :
    σ'[tr]? = some td ∧
    σ'[sr]? = (σ[sr]?).map (fun d => dset d "size" (FVal.int (truncMul s q1))) ∧
    σ'[ar]? = (σ[ar]?).map (fun d => dset d "size" (FVal.int (truncMul s q2))) ∧
    σ'[kr]? = (σ[kr]?).map
      (fun d => dset d "size" (FVal.int (truncMul (truncMul s q2) q3))) ∧
    σ'[lr]? = (σ[lr]?).map (fun d => dset d "size" (FVal.int (truncMul s q4))) := by
  unfold deriveSizes at h
  have r0 : readSizeInt σ tr = some s := by
    rw [readSizeInt, ht]
    simpa using hs
  rw [r0] at h
  simp only [] at h
  have r1 : readSizeInt (writeSize σ sr (truncMul s q1)) tr = some s := by
    rw [readSizeInt_writeSize_ne _ _ _ _ h21.symm]
    exact r0
  rw [r1] at h
  simp only [] at h
  cases har : σ[ar]? with
  | none =>
    exfalso
    have h6 : (writeSize σ sr (truncMul s q1))[ar]? = none := by
      rw [getq_writeSize_ne _ _ _ _ h32]
      exact har
    rw [getq_writeSize_none _ _ _ h6] at h
    rw [show readSizeInt (writeSize σ sr (truncMul s q1)) ar = none by
      rw [readSizeInt, h6]; rfl] at h
    simp at h
  | some da =>
    have h6ar : (writeSize σ sr (truncMul s q1))[ar]? = some da := by
      rw [getq_writeSize_ne _ _ _ _ h32]
      exact har
    have r2 : readSizeInt
        (writeSize (writeSize σ sr (truncMul s q1)) ar (truncMul s q2)) ar =
        some (truncMul s q2) :=
      readSizeInt_writeSize_self _ _ _ da h6ar
    rw [r2] at h
    simp only [] at h
    have r3 : readSizeInt
        (writeSize (writeSize (writeSize σ sr (truncMul s q1)) ar (truncMul s q2))
          kr (truncMul (truncMul s q2) q3)) tr = some s := by
      rw [readSizeInt_writeSize_ne _ _ _ _ h41.symm,
        readSizeInt_writeSize_ne _ _ _ _ h31.symm]
      exact r1
    rw [r3] at h
    simp only [Option.some.injEq] at h
    subst h
    refine ⟨?_, ?_, ?_, ?_, ?_⟩
    · rw [getq_writeSize_ne _ _ _ _ h51.symm, getq_writeSize_ne _ _ _ _ h41.symm,
        getq_writeSize_ne _ _ _ _ h31.symm, getq_writeSize_ne _ _ _ _ h21.symm]
      exact ht
    · rw [getq_writeSize_ne _ _ _ _ h52.symm, getq_writeSize_ne _ _ _ _ h42.symm,
        getq_writeSize_ne _ _ _ _ h32.symm]
      cases hsr : σ[sr]? with
      | none => rw [getq_writeSize_none _ _ _ hsr, hsr]; rfl
      | some ds => rw [getq_writeSize_self _ _ _ ds hsr]; rfl
    · rw [getq_writeSize_ne _ _ _ _ h53.symm, getq_writeSize_ne _ _ _ _ h43.symm,
        getq_writeSize_self _ _ _ da h6ar]
      rfl
    · rw [getq_writeSize_ne _ _ _ _ h54.symm]
      have hk7 : (writeSize (writeSize σ sr (truncMul s q1)) ar (truncMul s q2))[kr]? =
          σ[kr]? := by
        rw [getq_writeSize_ne _ _ _ _ h43, getq_writeSize_ne _ _ _ _ h42]
      cases hkr : σ[kr]? with
      | none =>
        rw [getq_writeSize_none _ _ _ (hk7.trans hkr), hk7, hkr]
        rfl
      | some dk =>
        rw [getq_writeSize_self _ _ _ dk (hk7.trans hkr)]
        rfl
    · have hl8 : (writeSize (writeSize (writeSize σ sr (truncMul s q1)) ar
          (truncMul s q2)) kr (truncMul (truncMul s q2) q3))[lr]? = σ[lr]? := by
        rw [getq_writeSize_ne _ _ _ _ h54, getq_writeSize_ne _ _ _ _ h53,
          getq_writeSize_ne _ _ _ _ h52]
      cases hlr : σ[lr]? with
      | none =>
        rw [getq_writeSize_none _ _ _ (hl8.trans hlr), hl8, hlr]
        rfl
      | some dl =>
        rw [getq_writeSize_self _ _ _ dl (hl8.trans hlr)]
        rfl

theorem allocAll_tr_supplied (o : Options) (σ0 : Store) (r : ℕ)
    (hr : o.title_font = some r) : (allocAll o σ0).tr = r := by
  simp [allocAll, allocFont, hr]

theorem allocAll_sr_supplied (o : Options) (σ0 : Store) (r : ℕ)
    (hr : o.subtitle_font = some r) : (allocAll o σ0).sr = r := by
  simp [allocAll, allocFont, hr]

theorem allocAll_ar_supplied (o : Options) (σ0 : Store) (r : ℕ)
    (hr : o.axis_title_font = some r) : (allocAll o σ0).ar = r := by
  simp [allocAll, allocFont, hr]

theorem allocAll_kr_supplied (o : Options) (σ0 : Store) (r : ℕ)
    (hr : o.tick_font = some r) : (allocAll o σ0).kr = r := by
  simp [allocAll, allocFont, hr]

theorem allocAll_lr_supplied (o : Options) (σ0 : Store) (r : ℕ)
    (hr : o.legend_font = some r) : (allocAll o σ0).lr = r := by
  simp [allocAll, allocFont, hr]

theorem allocAll_st_tr (o : Options) (σ0 : Store) (hv : ValidOpts o σ0) :
    (allocAll o σ0).st[(allocAll o σ0).tr]? =
      effFont o.title_font defaultTitleFont σ0 := by
  cases hq : o.title_font with
  | some r =>
    rw [allocAll_tr_supplied o σ0 r hq,
      allocAll_st_low o σ0 r (valid_title o σ0 hv r hq)]
    simp [effFont, hq]
  | none =>
    have e1 : allocFont o.title_font defaultTitleFont σ0 =
        (σ0.length, σ0 ++ [defaultTitleFont]) := by rw [hq]; rfl
    simp only [allocAll, e1]
    have h1 : σ0.length < (σ0 ++ [defaultTitleFont]).length := by simp
    have h2 : σ0.length <
        (allocFont o.subtitle_font defaultAuxFont (σ0 ++ [defaultTitleFont])).2.length :=
      lt_of_lt_of_le h1 (allocFont_length_le _ _ _)
    have h3 : σ0.length < (allocFont o.axis_title_font defaultAuxFont
        (allocFont o.subtitle_font defaultAuxFont
          (σ0 ++ [defaultTitleFont])).2).2.length :=
      lt_of_lt_of_le h2 (allocFont_length_le _ _ _)
    have h4 : σ0.length < (allocFont o.tick_font defaultAuxFont
        (allocFont o.axis_title_font defaultAuxFont
          (allocFont o.subtitle_font defaultAuxFont
            (σ0 ++ [defaultTitleFont])).2).2).2.length :=
      lt_of_lt_of_le h3 (allocFont_length_le _ _ _)
    rw [allocFont_get_low _ _ _ _ h4, allocFont_get_low _ _ _ _ h3,
      allocFont_get_low _ _ _ _ h2, allocFont_get_low _ _ _ _ h1,
      List.getElem?_concat_length]
    simp [effFont, hq]

theorem allocAll_st_sr (o : Options) (σ0 : Store) (hv : ValidOpts o σ0) :
    (allocAll o σ0).st[(allocAll o σ0).sr]? =
      effFont o.subtitle_font defaultAuxFont σ0 := by
  cases hq : o.subtitle_font with
  | some r =>
    rw [allocAll_sr_supplied o σ0 r hq,
      allocAll_st_low o σ0 r (valid_subtitle o σ0 hv r hq)]
    simp [effFont, hq]
  | none =>
    have e2 : allocFont o.subtitle_font defaultAuxFont
        (allocFont o.title_font defaultTitleFont σ0).2 =
        ((allocFont o.title_font defaultTitleFont σ0).2.length,
          (allocFont o.title_font defaultTitleFont σ0).2 ++ [defaultAuxFont]) := by
      rw [hq]
      rfl
    simp only [allocAll, e2]
    have h1 : (allocFont o.title_font defaultTitleFont σ0).2.length <
        ((allocFont o.title_font defaultTitleFont σ0).2 ++ [defaultAuxFont]).length := by
      simp
    have h2 : (allocFont o.title_font defaultTitleFont σ0).2.length <
        (allocFont o.axis_title_font defaultAuxFont
          ((allocFont o.title_font defaultTitleFont σ0).2 ++ [defaultAuxFont])).2.length :=
      lt_of_lt_of_le h1 (allocFont_length_le _ _ _)
    have h3 : (allocFont o.title_font defaultTitleFont σ0).2.length <
        (allocFont o.tick_font defaultAuxFont (allocFont o.axis_title_font defaultAuxFont
          ((allocFont o.title_font defaultTitleFont σ0).2 ++
            [defaultAuxFont])).2).2.length :=
      lt_of_lt_of_le h2 (allocFont_length_le _ _ _)
    rw [allocFont_get_low _ _ _ _ h3, allocFont_get_low _ _ _ _ h2,
      allocFont_get_low _ _ _ _ h1, List.getElem?_concat_length]
    simp [effFont, hq]

theorem allocAll_st_ar (o : Options) (σ0 : Store) (hv : ValidOpts o σ0) :
    (allocAll o σ0).st[(allocAll o σ0).ar]? =
      effFont o.axis_title_font defaultAuxFont σ0 := by
  cases hq : o.axis_title_font with
  | some r =>
    rw [allocAll_ar_supplied o σ0 r hq,
      allocAll_st_low o σ0 r (valid_axis o σ0 hv r hq)]
    simp [effFont, hq]
  | none =>
    have e3 : allocFont o.axis_title_font defaultAuxFont
        (allocFont o.subtitle_font defaultAuxFont
          (allocFont o.title_font defaultTitleFont σ0).2).2 =
        ((allocFont o.subtitle_font defaultAuxFont
            (allocFont o.title_font defaultTitleFont σ0).2).2.length,
          (allocFont o.subtitle_font defaultAuxFont
            (allocFont o.title_font defaultTitleFont σ0).2).2 ++ [defaultAuxFont]) := by
      rw [hq]
      rfl
    simp only [allocAll, e3]
    have h1 : (allocFont o.subtitle_font defaultAuxFont
        (allocFont o.title_font defaultTitleFont σ0).2).2.length <
        ((allocFont o.subtitle_font defaultAuxFont
          (allocFont o.title_font defaultTitleFont σ0).2).2 ++
            [defaultAuxFont]).length := by
      simp
    have h2 : (allocFont o.subtitle_font defaultAuxFont
        (allocFont o.title_font defaultTitleFont σ0).2).2.length <
        (allocFont o.tick_font defaultAuxFont ((allocFont o.subtitle_font defaultAuxFont
          (allocFont o.title_font defaultTitleFont σ0).2).2 ++
            [defaultAuxFont])).2.length :=
      lt_of_lt_of_le h1 (allocFont_length_le _ _ _)
    rw [allocFont_get_low _ _ _ _ h2, allocFont_get_low _ _ _ _ h1,
      List.getElem?_concat_length]
    simp [effFont, hq]

theorem allocAll_st_kr (o : Options) (σ0 : Store) (hv : ValidOpts o σ0) :
    (allocAll o σ0).st[(allocAll o σ0).kr]? =
      effFont o.tick_font defaultAuxFont σ0 := by
  cases hq : o.tick_font with
  | some r =>
    rw [allocAll_kr_supplied o σ0 r hq,
      allocAll_st_low o σ0 r (valid_tick o σ0 hv r hq)]
    simp [effFont, hq]
  | none =>
    have e4 : allocFont o.tick_font defaultAuxFont
        (allocFont o.axis_title_font defaultAuxFont
          (allocFont o.subtitle_font defaultAuxFont
            (allocFont o.title_font defaultTitleFont σ0).2).2).2 =
        ((allocFont o.axis_title_font defaultAuxFont
            (allocFont o.subtitle_font defaultAuxFont
              (allocFont o.title_font defaultTitleFont σ0).2).2).2.length,
          (allocFont o.axis_title_font defaultAuxFont
            (allocFont o.subtitle_font defaultAuxFont
              (allocFont o.title_font defaultTitleFont σ0).2).2).2 ++
                [defaultAuxFont]) := by
      rw [hq]
      rfl
    simp only [allocAll, e4]
    have h1 : (allocFont o.axis_title_font defaultAuxFont
        (allocFont o.subtitle_font defaultAuxFont
          (allocFont o.title_font defaultTitleFont σ0).2).2).2.length <
        ((allocFont o.axis_title_font defaultAuxFont
          (allocFont o.subtitle_font defaultAuxFont
            (allocFont o.title_font defaultTitleFont σ0).2).2).2 ++
              [defaultAuxFont]).length := by
      simp
    rw [allocFont_get_low _ _ _ _ h1, List.getElem?_concat_length]
    simp [effFont, hq]

theorem allocAll_st_lr (o : Options) (σ0 : Store) (hv : ValidOpts o σ0) :
    (allocAll o σ0).st[(allocAll o σ0).lr]? =
      effFont o.legend_font defaultAuxFont σ0 := by
  cases hq : o.legend_font with
  | some r =>
    rw [allocAll_lr_supplied o σ0 r hq,
      allocAll_st_low o σ0 r (valid_legend o σ0 hv r hq)]
    simp [effFont, hq]
  | none =>
    have e5 : allocFont o.legend_font defaultAuxFont
        (allocFont o.tick_font defaultAuxFont
          (allocFont o.axis_title_font defaultAuxFont
            (allocFont o.subtitle_font defaultAuxFont
              (allocFont o.title_font defaultTitleFont σ0).2).2).2).2 =
        ((allocFont o.tick_font defaultAuxFont
            (allocFont o.axis_title_font defaultAuxFont
              (allocFont o.subtitle_font defaultAuxFont
                (allocFont o.title_font defaultTitleFont σ0).2).2).2).2.length,
          (allocFont o.tick_font defaultAuxFont
            (allocFont o.axis_title_font defaultAuxFont
              (allocFont o.subtitle_font defaultAuxFont
                (allocFont o.title_font defaultTitleFont σ0).2).2).2).2 ++
                  [defaultAuxFont]) := by
      rw [hq]
      rfl
    simp only [allocAll, e5]
    rw [List.getElem?_concat_length]
    simp [effFont, hq]

/-- The five stored dicts after a successful construction whose five font
objects are pairwise distinct: the title dict is untouched, and each
derived dict is the effective base dict with its own derived size written
(`s` is the title size, read once before any write). -/
theorem init_fonts_spec (o : Options) (σ0 : Store) (f : PlotlyFormatter)
    (σf : Store) (s : ℤ)
    (h : init o σ0 = some (f, σf))
    (hnd : ([f.title_font, f.subtitle_font, f.axis_title_font, f.tick_font,
      f.legend_font] : List ℕ).Nodup)
    (hv : ValidOpts o σ0)
    (hts : titleSizeInt o σ0 = some s) :
    σf[f.title_font]? = effFont o.title_font defaultTitleFont σ0 ∧
    σf[f.subtitle_font]? = (effFont o.subtitle_font defaultAuxFont σ0).map
      (fun d => dset d "size" (FVal.int (truncMul s (rq1 o)))) ∧
    σf[f.axis_title_font]? = (effFont o.axis_title_font defaultAuxFont σ0).map
      (fun d => dset d "size" (FVal.int (truncMul s (rq2 o)))) ∧
    σf[f.tick_font]? = (effFont o.tick_font defaultAuxFont σ0).map
      (fun d => dset d "size" (FVal.int (truncMul (truncMul s (rq2 o)) (rq3 o)))) ∧
    σf[f.legend_font]? = (effFont o.legend_font defaultAuxFont σ0).map
      (fun d => dset d "size" (FVal.int (truncMul s (rq4 o)))) := by
  obtain ⟨hd, hf⟩ := init_inv o σ0 f σf h
  have ftr : f.title_font = (allocAll o σ0).tr := by rw [hf]; rfl
  have fsr : f.subtitle_font = (allocAll o σ0).sr := by rw [hf]; rfl
  have far : f.axis_title_font = (allocAll o σ0).ar := by rw [hf]; rfl
  have fkr : f.tick_font = (allocAll o σ0).kr := by rw [hf]; rfl
  have flr : f.legend_font = (allocAll o σ0).lr := by rw [hf]; rfl
  rw [titleSizeInt] at hts
  have htd := allocAll_st_tr o σ0 hv
  cases hef : effFont o.title_font defaultTitleFont σ0 with
  | none => rw [hef] at hts; exact absurd hts (by simp)
  | some td =>
    rw [hef] at hts htd
    simp only [Option.some_bind] at hts
    rw [ftr, fsr, far, fkr, flr] at hnd ⊢
    simp only [List.nodup_cons, List.mem_cons, List.mem_singleton, not_or,
      List.nodup_nil, List.not_mem_nil, not_false_iff, and_true] at hnd
    obtain ⟨⟨h12, h13, h14, h15⟩, ⟨h23, h24, h25⟩, ⟨h34, h35⟩, h45⟩ := hnd
    obtain ⟨s1, s2, s3, s4, s5⟩ := deriveSizes_spec
      (allocAll o σ0).tr (allocAll o σ0).sr (allocAll o σ0).ar
      (allocAll o σ0).kr (allocAll o σ0).lr
      (rq1 o) (rq2 o) (rq3 o) (rq4 o) (allocAll o σ0).st σf td s hd htd hts
      (Ne.symm h12) (Ne.symm h13) (Ne.symm h14) (Ne.symm h15)
      (Ne.symm h23) (Ne.symm h24) (Ne.symm h25)
      (Ne.symm h34) (Ne.symm h35) (Ne.symm h45)
    rw [allocAll_st_sr o σ0 hv] at s2
    rw [allocAll_st_ar o σ0 hv] at s3
    rw [allocAll_st_kr o σ0 hv] at s4
    rw [allocAll_st_lr o σ0 hv] at s5
    exact ⟨s1, s2, s3, s4, s5⟩

/-! ## Reachability by size writes (no distinctness assumptions) -/

theorem reach_refl (d : FontDict) : Reach d d := Or.inl rfl

theorem reach_dset (d0 d : FontDict) (n : ℤ) (h : Reach d0 d) :
    Reach d0 (dset d "size" (FVal.int n)) := by
  rcases h with h | ⟨m, h⟩
  · exact Or.inr ⟨n, by rw [h]⟩
  · exact Or.inr ⟨n, by rw [h, dset_dset_self]⟩

theorem writeSize_reach (σ : Store) (r t : ℕ) (n : ℤ) (d0 d : FontDict)
    (hcur : σ[t]? = some d) (hre : Reach d0 d) :
    ∃ d', (writeSize σ r n)[t]? = some d' ∧ Reach d0 d' := by
  by_cases he : t = r
  · subst he
    exact ⟨_, getq_writeSize_self σ t n d hcur, reach_dset d0 d n hre⟩
  · exact ⟨d, by rw [getq_writeSize_ne _ _ _ _ he]; exact hcur, hre⟩

theorem writeSize_reachW (σ : Store) (r t : ℕ) (n : ℤ) (d0 d : FontDict)
    (hcur : σ[t]? = some d) (hw : ∃ m : ℤ, d = dset d0 "size" (FVal.int m)) :
    ∃ d', (writeSize σ r n)[t]? = some d' ∧
      ∃ m : ℤ, d' = dset d0 "size" (FVal.int m) := by
  by_cases he : t = r
  · subst he
    obtain ⟨m, hm⟩ := hw
    exact ⟨_, getq_writeSize_self σ t n d hcur,
      ⟨n, by rw [hm, dset_dset_self]⟩⟩
  · exact ⟨d, by rw [getq_writeSize_ne _ _ _ _ he]; exact hcur, hw⟩

/-- A successful derivation is exactly four size writes, with the four
read values named. -/
theorem deriveSizes_eq (tr sr ar kr lr : ℕ) (q1 q2 q3 q4 : ℚ) (σ σ' : Store)
    (h : deriveSizes tr sr ar kr lr q1 q2 q3 q4 σ = some σ') :
    ∃ s0 s1 a2 s3 : ℤ,
      readSizeInt σ tr = some s0 ∧
      readSizeInt (writeSize σ sr (truncMul s0 q1)) tr = some s1 ∧
      readSizeInt (writeSize (writeSize σ sr (truncMul s0 q1)) ar
        (truncMul s1 q2)) ar = some a2 ∧
      readSizeInt (writeSize (writeSize (writeSize σ sr (truncMul s0 q1)) ar
        (truncMul s1 q2)) kr (truncMul a2 q3)) tr = some s3 ∧
      σ' = writeSize (writeSize (writeSize (writeSize σ sr (truncMul s0 q1)) ar
        (truncMul s1 q2)) kr (truncMul a2 q3)) lr (truncMul s3 q4) := by
  unfold deriveSizes at h
  cases hr0 : readSizeInt σ tr with
  | none => rw [hr0] at h; simp at h
  | some s0 =>
    rw [hr0] at h
    simp only [] at h
    cases hr1 : readSizeInt (writeSize σ sr (truncMul s0 q1)) tr with
    | none => rw [hr1] at h; simp at h
    | some s1 =>
      rw [hr1] at h
      simp only [] at h
      cases hr2 : readSizeInt (writeSize (writeSize σ sr (truncMul s0 q1)) ar
          (truncMul s1 q2)) ar with
      | none => rw [hr2] at h; simp at h
      | some a2 =>
        rw [hr2] at h
        simp only [] at h
        cases hr3 : readSizeInt (writeSize (writeSize (writeSize σ sr
            (truncMul s0 q1)) ar (truncMul s1 q2)) kr (truncMul a2 q3)) tr with
        | none => rw [hr3] at h; simp at h
        | some s3 =>
          rw [hr3] at h
          simp only [Option.some.injEq] at h
          exact ⟨s0, s1, a2, s3, rfl, hr1, hr2, hr3, h.symm⟩

theorem write_upgrade (σ : Store) (t : ℕ) (n : ℤ) (d0 d : FontDict)
    (hcur : σ[t]? = some d) (hre : Reach d0 d) :
    ∃ d', (writeSize σ t n)[t]? = some d' ∧
      ∃ m : ℤ, d' = dset d0 "size" (FVal.int m) := by
  rcases hre with h | ⟨m, hm⟩
  · exact ⟨_, getq_writeSize_self σ t n d hcur, ⟨n, by rw [h]⟩⟩
  · exact ⟨_, getq_writeSize_self σ t n d hcur, ⟨n, by rw [hm, dset_dset_self]⟩⟩

/-- Construction succeeds as soon as the effective title dict has an
integer size: the later reads can only see freshly written integer sizes. -/
theorem deriveSizes_some (tr sr ar kr lr : ℕ) (q1 q2 q3 q4 : ℚ) (σ : Store)
    (td : FontDict) (s : ℤ) (ht : σ[tr]? = some td) (hs : getIntSize td = some s)
    (har : ar < σ.length) :
    ∃ σ', deriveSizes tr sr ar kr lr q1 q2 q3 q4 σ = some σ' := by
  have r0 : readSizeInt σ tr = some s := by
    rw [readSizeInt, ht]
    simpa using hs
  have r1 : (readSizeInt (writeSize σ sr (truncMul s q1)) tr).isSome :=
    readSizeInt_writeSize_isSome σ sr tr _ (by rw [r0]; rfl)
  obtain ⟨s1, hs1⟩ := Option.isSome_iff_exists.mp r1
  have har6 : ar < (writeSize σ sr (truncMul s q1)).length := by
    rw [length_writeSize]
    exact har
  obtain ⟨da, hda⟩ : ∃ da, (writeSize σ sr (truncMul s q1))[ar]? = some da :=
    ⟨_, List.getElem?_eq_getElem har6⟩
  have r2 : readSizeInt (writeSize (writeSize σ sr (truncMul s q1)) ar
      (truncMul s1 q2)) ar = some (truncMul s1 q2) :=
    readSizeInt_writeSize_self _ _ _ _ hda
  have r3 : (readSizeInt (writeSize (writeSize (writeSize σ sr (truncMul s q1))
      ar (truncMul s1 q2)) kr (truncMul (truncMul s1 q2) q3)) tr).isSome :=
    readSizeInt_writeSize_isSome _ kr tr _
      (readSizeInt_writeSize_isSome _ ar tr _ (by rw [hs1]; rfl))
  obtain ⟨s3, hs3⟩ := Option.isSome_iff_exists.mp r3
  refine ⟨writeSize (writeSize (writeSize (writeSize σ sr (truncMul s q1)) ar
    (truncMul s1 q2)) kr (truncMul (truncMul s1 q2) q3)) lr (truncMul s3 q4), ?_⟩
  unfold deriveSizes
  rw [r0]
  simp only []
  rw [hs1]
  simp only []
  rw [r2]
  simp only []
  rw [hs3]

theorem init_some (o : Options) (σ0 : Store) (s : ℤ)
    (hv : ValidOpts o σ0) (hts : titleSizeInt o σ0 = some s) :
    ∃ σf, init o σ0 = some (mkFormatter o (allocAll o σ0), σf) := by
  rw [titleSizeInt] at hts
  cases hef : effFont o.title_font defaultTitleFont σ0 with
  | none => rw [hef] at hts; exact absurd hts (by simp)
  | some td =>
    rw [hef] at hts
    simp only [Option.some_bind] at hts
    have htd : (allocAll o σ0).st[(allocAll o σ0).tr]? = some td := by
      rw [allocAll_st_tr o σ0 hv, hef]
    have h1 : ((allocAll o σ0).st[(allocAll o σ0).ar]?).isSome := by
      rw [allocAll_st_ar o σ0 hv]
      cases hq : o.axis_title_font with
      | some r =>
        simp only [effFont]
        rw [List.getElem?_eq_getElem (valid_axis o σ0 hv r hq)]
        rfl
      | none => simp [effFont]
    have harv : (allocAll o σ0).ar < (allocAll o σ0).st.length := by
      cases hq2 : (allocAll o σ0).st[(allocAll o σ0).ar]? with
      | none => rw [hq2] at h1; exact absurd h1 (by simp)
      | some d => exact (List.getElem?_eq_some_iff.mp hq2).1
    obtain ⟨σ', hσ'⟩ := deriveSizes_some (allocAll o σ0).tr (allocAll o σ0).sr
      (allocAll o σ0).ar (allocAll o σ0).kr (allocAll o σ0).lr
      (rq1 o) (rq2 o) (rq3 o) (rq4 o) (allocAll o σ0).st td s htd hts harv
    refine ⟨σ', ?_⟩
    simp only [init]
    rw [hσ']

/-! ## Claims -/

/-- Claim C2: construction with no options yields exactly
`titleFont.size = 24`, `subtitleFont.size = 22`, `axisTitleFont.size = 21`,
`tickFont.size = 18` and `legendFont.size = 21`. -/
theorem C2_default_sizes :
    allSizes (init optsNone []) =
      some (some 24, some 22, some 21, some 18, some 21) := by
  decide

/-- Claim C1, counterexample: with `title_font = subtitle_font =
{"size": -5}` and `subtitle_ratio = 0.5`, the subtitle size is
`int(-2.5) = -2`, not `floor(-2.5) = -3`, and the axis-title size is `-1`,
not the truncated product of the *original* title size with its ratio
(`int(-4.5) = -4`) — `int()` truncates toward zero and the two options
alias one dict. -/
theorem C1_counterexample :
    allSizes (init c1opts c1store) =
      some (some (-2), some (-2), some (-1), some 0, some (-1)) ∧
    (-2 : ℤ) ≠ ⌊((-5 : ℚ)) * ((1 : ℚ)/2)⌋ ∧
    (-1 : ℤ) ≠ truncMul (-5) (mkRat 9 10) := by
  refine ⟨by decide, by norm_num, by decide⟩

/-- Claim C3, counterexample: with `subtitle_font = tick_font =
{"family": "Arial"}` (one dict for both options), the stored subtitle size
ends as `18` — the tick derivation, not `int(24 * 0.95) = 22`, the
truncated product of the subtitle font's own base size and ratio. -/
theorem C3_counterexample :
    allSizes (init c3opts c3store) =
      some (some 24, some 18, some 21, some 18, some 21) ∧
    (18 : ℤ) ≠ truncMul 24 (mkRat 19 20) := by
  exact ⟨by decide, by decide⟩

/-- Claim C7, counterexample: `PlotlyFormatter(title_font={"family":
"Arial"})` raises a `KeyError` at line 70 (`self.title_font["size"]`), so
construction does not succeed for every options mapping. -/
theorem C7_counterexample : init c7opts c7store = none := by decide

/-- Claim C8, counterexample: with `tick_font = legend_font = {"size": 5}`
(one dict for both options), the stored tick font's size ends as `21`
(the legend derivation overwrote it), not its own derived computation
`int(21 * 0.9) = 18`. -/
theorem C8_counterexample :
    allSizes (init c8opts c8store) =
      some (some 24, some 22, some 21, some 21, some 21) ∧
    (21 : ℤ) ≠ truncMul 21 (mkRat 9 10) := by
  exact ⟨by decide, by decide⟩

/-- Claim C10, counterexample: with `subtitle_font = tick_font =
{"size": 99, "color": "red"}` (one dict for both options), the caller's
mapping ends with `size = 18` (the tick derivation), not the subtitle's
derived value `int(24 * 0.95) = 22`. -/
theorem C10_counterexample :
    storeAt (init c10opts c10store) 0 =
      some [("size", FVal.int 18), ("color", FVal.str "red")] ∧
    (18 : ℤ) ≠ truncMul 24 (mkRat 19 20) := by
  exact ⟨by decide, by decide⟩

/-- Claim C4: for every formatter and figure, applying `standardize` twice
in succession is idempotent — the figure state after the second
application equals the state after the first. -/
theorem C4_standardize_idempotent (fmt : PlotlyFormatter) (σ : Store) (fig : Fig) :
    (standardize fmt σ (standardize fmt σ fig).2.2).2.2 =
      (standardize fmt σ fig).2.2 := by
  have hax : ∀ a : Axis, styleAxis fmt σ (styleAxis fmt σ a) = styleAxis fmt σ a :=
    fun a => rfl
  have han : ∀ a : Ann, setAnnFont (derefD σ fmt.subtitle_font)
      (setAnnFont (derefD σ fmt.subtitle_font) a) =
      setAnnFont (derefD σ fmt.subtitle_font) a :=
    fun a => rfl
  have hax2 : styleAxis fmt σ ∘ styleAxis fmt σ = styleAxis fmt σ := funext hax
  have han2 : setAnnFont (derefD σ fmt.subtitle_font) ∘
      setAnnFont (derefD σ fmt.subtitle_font) =
      setAnnFont (derefD σ fmt.subtitle_font) := funext han
  simp [standardize, List.map_map, Option.map_map, hax2, han2]

/-- Claim C5: if the layout holds `N` text elements before `standardize`,
afterwards it holds the same `N` elements, every one carrying the
formatter's subtitle font. -/
theorem C5_annotation_fonts (fmt : PlotlyFormatter) (σ : Store) (fig : Fig)
    (l : List Ann) (h : fig.anns = some l) :
    (standardize fmt σ fig).2.2.anns =
      some (l.map (setAnnFont (derefD σ fmt.subtitle_font))) ∧
    (l.map (setAnnFont (derefD σ fmt.subtitle_font))).length = l.length ∧
    (l.map (setAnnFont (derefD σ fmt.subtitle_font))).map Ann.font =
      List.replicate l.length (derefD σ fmt.subtitle_font) := by
  refine ⟨by simp [standardize, h], by simp, ?_⟩
  clear h
  induction l with
  | nil => rfl
  | cons a t ih =>
    simp only [List.map_cons, List.length_cons, List.replicate_succ,
      List.cons.injEq]
    exact ⟨rfl, ih⟩

/-- Claim C6: two constructions that differ only in `title_x` lead to
identical figure states after `standardize` — the stored `title_x` is
never applied (the assignment is commented out in the source). -/
theorem C6_title_x_no_effect (opts : Options) (v1 v2 : Option ℚ) (σ0 : Store)
    (fig : Fig) (f1 f2 : PlotlyFormatter) (σ1 σ2 : Store)
    (h1 : init { opts with title_x := v1 } σ0 = some (f1, σ1))
    (h2 : init { opts with title_x := v2 } σ0 = some (f2, σ2)) :
    (standardize f1 σ1 fig).2.2 = (standardize f2 σ2 fig).2.2 := by
  obtain ⟨hd1, hf1⟩ := init_inv _ _ _ _ h1
  obtain ⟨hd2, hf2⟩ := init_inv _ _ _ _ h2
  rw [show allocAll { opts with title_x := v1 } σ0 =
      allocAll { opts with title_x := v2 } σ0 from rfl,
    show rq1 { opts with title_x := v1 } = rq1 { opts with title_x := v2 } from rfl,
    show rq2 { opts with title_x := v1 } = rq2 { opts with title_x := v2 } from rfl,
    show rq3 { opts with title_x := v1 } = rq3 { opts with title_x := v2 } from rfl,
    show rq4 { opts with title_x := v1 } = rq4 { opts with title_x := v2 } from rfl]
    at hd1
  have hσ : σ1 = σ2 := by
    have := hd1.symm.trans hd2
    exact Option.some.inj this
  subst hσ
  rw [hf1, hf2]
  rfl

theorem effFont_isSome (or : Option ℕ) (d : FontDict) (σ0 : Store)
    (hvr : ∀ r, or = some r → r < σ0.length) :
    ∃ dd, effFont or d σ0 = some dd := by
  cases hq : or with
  | some r =>
    simp only [effFont]
    exact ⟨_, List.getElem?_eq_getElem (hvr r hq)⟩
  | none => exact ⟨d, rfl⟩

theorem reach_dget_ne (d d' : FontDict) (k : String) (hk : k ≠ "size")
    (h : Reach d d') : dget d' k = dget d k := by
  rcases h with h | ⟨n, h⟩
  · rw [h]
  · rw [h]
    exact dget_dset_size_ne d k n hk

theorem dget_of_getIntSize (d : FontDict) (n : ℤ) (h : getIntSize d = some n) :
    dget d "size" = some (FVal.int n) := by
  unfold getIntSize at h
  cases hq : dget d "size" with
  | none => rw [hq] at h; simp at h
  | some v =>
    cases v with
    | int m =>
      rw [hq] at h
      simp only [Option.some.injEq] at h
      rw [h]
    | str t => rw [hq] at h; simp at h

/-- Any dict survives the four derivation writes, changed at most by
`["size"] = <int>` assignments — no distinctness needed. -/
theorem deriveSizes_reach_any (tr sr ar kr lr : ℕ) (q1 q2 q3 q4 : ℚ)
    (σ σ' : Store) (h : deriveSizes tr sr ar kr lr q1 q2 q3 q4 σ = some σ')
    (t : ℕ) (d : FontDict) (ht : σ[t]? = some d) :
    ∃ d', σ'[t]? = some d' ∧ Reach d d' := by
  obtain ⟨s0, s1, a2, s3, _, _, _, _, h5⟩ :=
    deriveSizes_eq tr sr ar kr lr q1 q2 q3 q4 σ σ' h
  subst h5
  obtain ⟨d1, hd1, hr1⟩ := writeSize_reach σ sr t (truncMul s0 q1) d d ht (reach_refl d)
  obtain ⟨d2, hd2, hr2⟩ := writeSize_reach _ ar t (truncMul s1 q2) d d1 hd1 hr1
  obtain ⟨d3, hd3, hr3⟩ := writeSize_reach _ kr t (truncMul a2 q3) d d2 hd2 hr2
  exact writeSize_reach _ lr t (truncMul s3 q4) d d3 hd3 hr3

/-- A dict that one of the four derived slots points at ends as its start
value with some integer written at `"size"` — even under aliasing. -/
theorem deriveSizes_writes (tr sr ar kr lr : ℕ) (q1 q2 q3 q4 : ℚ)
    (σ σ' : Store) (h : deriveSizes tr sr ar kr lr q1 q2 q3 q4 σ = some σ')
    (t : ℕ) (d : FontDict) (ht : σ[t]? = some d)
    (hts : t = sr ∨ t = ar ∨ t = kr ∨ t = lr) :
    ∃ n : ℤ, σ'[t]? = some (dset d "size" (FVal.int n)) := by
  obtain ⟨s0, s1, a2, s3, _, _, _, _, h5⟩ :=
    deriveSizes_eq tr sr ar kr lr q1 q2 q3 q4 σ σ' h
  subst h5
  rcases hts with h | h | h | h
  · subst h
    obtain ⟨d1, hd1, hw1⟩ := write_upgrade σ t (truncMul s0 q1) d d ht (reach_refl d)
    obtain ⟨d2, hd2, hw2⟩ := writeSize_reachW _ ar t (truncMul s1 q2) d d1 hd1 hw1
    obtain ⟨d3, hd3, hw3⟩ := writeSize_reachW _ kr t (truncMul a2 q3) d d2 hd2 hw2
    obtain ⟨d4, hd4, hw4⟩ := writeSize_reachW _ lr t (truncMul s3 q4) d d3 hd3 hw3
    obtain ⟨n, hn⟩ := hw4
    exact ⟨n, by rw [hd4, hn]⟩
  · subst h
    obtain ⟨d1, hd1, hr1⟩ := writeSize_reach σ sr t (truncMul s0 q1) d d ht (reach_refl d)
    obtain ⟨d2, hd2, hw2⟩ := write_upgrade _ t (truncMul s1 q2) d d1 hd1 hr1
    obtain ⟨d3, hd3, hw3⟩ := writeSize_reachW _ kr t (truncMul a2 q3) d d2 hd2 hw2
    obtain ⟨d4, hd4, hw4⟩ := writeSize_reachW _ lr t (truncMul s3 q4) d d3 hd3 hw3
    obtain ⟨n, hn⟩ := hw4
    exact ⟨n, by rw [hd4, hn]⟩
  · subst h
    obtain ⟨d1, hd1, hr1⟩ := writeSize_reach σ sr t (truncMul s0 q1) d d ht (reach_refl d)
    obtain ⟨d2, hd2, hr2⟩ := writeSize_reach _ ar t (truncMul s1 q2) d d1 hd1 hr1
    obtain ⟨d3, hd3, hw3⟩ := write_upgrade _ t (truncMul a2 q3) d d2 hd2 hr2
    obtain ⟨d4, hd4, hw4⟩ := writeSize_reachW _ lr t (truncMul s3 q4) d d3 hd3 hw3
    obtain ⟨n, hn⟩ := hw4
    exact ⟨n, by rw [hd4, hn]⟩
  · subst h
    obtain ⟨d1, hd1, hr1⟩ := writeSize_reach σ sr t (truncMul s0 q1) d d ht (reach_refl d)
    obtain ⟨d2, hd2, hr2⟩ := writeSize_reach _ ar t (truncMul s1 q2) d d1 hd1 hr1
    obtain ⟨d3, hd3, hr3⟩ := writeSize_reach _ kr t (truncMul a2 q3) d d2 hd2 hr2
    obtain ⟨d4, hd4, hw4⟩ := write_upgrade _ t (truncMul s3 q4) d d3 hd3 hr3
    obtain ⟨n, hn⟩ := hw4
    exact ⟨n, by rw [hd4, hn]⟩

/-- Claim C1 (amended): if the five font mappings are pairwise distinct
objects (their references live, as every Python dict's is) and the
effective title font has integer size `s`, the four derived sizes are
computed in sequence with Python `int()` — truncation toward zero, not
`floor` — as `subtitle = int(s·r_subtitle)`, `axisTitle =
int(s·r_axisTitle)`, `tick = int(axisTitleSize·r_tick)` (from the stored
axis-title size, not the title size) and `legend = int(s·r_legend)` (from
the title size directly). -/
theorem C1_derived_sizes_sequence (o : Options) (σ0 : Store)
    (f : PlotlyFormatter) (σf : Store) (s : ℤ)
    (h : init o σ0 = some (f, σf))
    (hnd : ([f.title_font, f.subtitle_font, f.axis_title_font, f.tick_font,
      f.legend_font] : List ℕ).Nodup)
    (hv : ValidOpts o σ0)
    (hts : titleSizeInt o σ0 = some s) :
    readSizeInt σf f.subtitle_font = some (truncMul s (rq1 o)) ∧
    readSizeInt σf f.axis_title_font = some (truncMul s (rq2 o)) ∧
    readSizeInt σf f.tick_font =
      (readSizeInt σf f.axis_title_font).map (fun a => truncMul a (rq3 o)) ∧
    readSizeInt σf f.legend_font = some (truncMul s (rq4 o)) := by
  obtain ⟨e1, e2, e3, e4, e5⟩ := init_fonts_spec o σ0 f σf s h hnd hv hts
  have hax : readSizeInt σf f.axis_title_font = some (truncMul s (rq2 o)) := by
    obtain ⟨da, hda⟩ := effFont_isSome o.axis_title_font defaultAuxFont σ0
      (fun r hr => valid_axis o σ0 hv r hr)
    rw [hda] at e3
    rw [readSizeInt, e3]
    simp [getIntSize_dset_size]
  refine ⟨?_, hax, ?_, ?_⟩
  · obtain ⟨ds, hds⟩ := effFont_isSome o.subtitle_font defaultAuxFont σ0
      (fun r hr => valid_subtitle o σ0 hv r hr)
    rw [hds] at e2
    rw [readSizeInt, e2]
    simp [getIntSize_dset_size]
  · obtain ⟨dk, hdk⟩ := effFont_isSome o.tick_font defaultAuxFont σ0
      (fun r hr => valid_tick o σ0 hv r hr)
    rw [hdk] at e4
    rw [readSizeInt, e4, hax]
    simp [getIntSize_dset_size]
  · obtain ⟨dl, hdl⟩ := effFont_isSome o.legend_font defaultAuxFont σ0
      (fun r hr => valid_legend o σ0 hv r hr)
    rw [hdl] at e5
    rw [readSizeInt, e5]
    simp [getIntSize_dset_size]

/-- Claim C3 (amended): if the five font mappings are pairwise distinct
objects, then after construction each derived size is the integer obtained
by *truncating toward zero* (Python `int()`, not rounding and not floor on
negatives) the product of its base size and its ratio — subtitle, axis
title and legend from the title size `s`, tick from the axis-title size —
and the only operation, `standardize`, changes neither the formatter nor
any stored font dict, so the sizes hold for the formatter's lifetime. -/
theorem C3_truncation_invariant (o : Options) (σ0 : Store)
    (f : PlotlyFormatter) (σf : Store) (s : ℤ) (fig : Fig)
    (h : init o σ0 = some (f, σf))
    (hnd : ([f.title_font, f.subtitle_font, f.axis_title_font, f.tick_font,
      f.legend_font] : List ℕ).Nodup)
    (hv : ValidOpts o σ0)
    (hts : titleSizeInt o σ0 = some s) :
    readSizeInt σf f.subtitle_font = some (truncMul s (rq1 o)) ∧
    readSizeInt σf f.axis_title_font = some (truncMul s (rq2 o)) ∧
    readSizeInt σf f.tick_font =
      some (truncMul (truncMul s (rq2 o)) (rq3 o)) ∧
    readSizeInt σf f.legend_font = some (truncMul s (rq4 o)) ∧
    (standardize f σf fig).1 = f ∧ (standardize f σf fig).2.1 = σf := by
  obtain ⟨e1, e2, e3, e4, e5⟩ := init_fonts_spec o σ0 f σf s h hnd hv hts
  refine ⟨?_, ?_, ?_, ?_, rfl, rfl⟩
  · obtain ⟨ds, hds⟩ := effFont_isSome o.subtitle_font defaultAuxFont σ0
      (fun r hr => valid_subtitle o σ0 hv r hr)
    rw [hds] at e2
    rw [readSizeInt, e2]
    simp [getIntSize_dset_size]
  · obtain ⟨da, hda⟩ := effFont_isSome o.axis_title_font defaultAuxFont σ0
      (fun r hr => valid_axis o σ0 hv r hr)
    rw [hda] at e3
    rw [readSizeInt, e3]
    simp [getIntSize_dset_size]
  · obtain ⟨dk, hdk⟩ := effFont_isSome o.tick_font defaultAuxFont σ0
      (fun r hr => valid_tick o σ0 hv r hr)
    rw [hdk] at e4
    rw [readSizeInt, e4]
    simp [getIntSize_dset_size]
  · obtain ⟨dl, hdl⟩ := effFont_isSome o.legend_font defaultAuxFont σ0
      (fun r hr => valid_legend o σ0 hv r hr)
    rw [hdl] at e5
    rw [readSizeInt, e5]
    simp [getIntSize_dset_size]

/-- Claim C7 (amended): construction succeeds for every options mapping
whose effective title font carries an integer size (always true when
`title_font` is not supplied; the `KeyError` case is the counterexample)
and whose supplied dict references are live (every Python call).  Each of
the sixteen recognised keys takes the supplied value when present and its
stated default when absent — for fonts, the formatter stores the caller's
own dict when supplied and a fresh `{family: Arial, color: black}` dict
when absent — and unrecognised keys have no effect at all. -/
theorem C7_option_resolution (o : Options) (σ0 : Store) (s : ℤ)
    (rt rs ra rk rl : ℕ) (e : List (String × FVal))
    (hv : ValidOpts o σ0) (hts : titleSizeInt o σ0 = some s) :
    (∃ f σf, init o σ0 = some (f, σf) ∧
      f.subtitle_ratio = o.subtitle_ratio.getD (mkRat 19 20) ∧
      f.axis_title_ratio = o.axis_title_ratio.getD (mkRat 9 10) ∧
      f.tick_font_ratio = o.tick_font_ratio.getD (mkRat 9 10) ∧
      f.legend_font_ratio = o.legend_font_ratio.getD (mkRat 9 10) ∧
      f.showgrid = o.showgrid.getD true ∧
      f.gridcolor = o.gridcolor.getD "LightGray" ∧
      f.gridwidth = o.gridwidth.getD 1 ∧
      f.template = o.template.getD "simple_white" ∧
      f.title_x = o.title_x.getD (mkRat 1 2) ∧
      f.width = o.width.getD 3200 ∧
      f.height = o.height.getD 800 ∧
      (o.title_font = some rt → f.title_font = rt) ∧
      (o.subtitle_font = some rs → f.subtitle_font = rs) ∧
      (o.axis_title_font = some ra → f.axis_title_font = ra) ∧
      (o.tick_font = some rk → f.tick_font = rk) ∧
      (o.legend_font = some rl → f.legend_font = rl) ∧
      (o.title_font = none →
        dget (derefD σf f.title_font) "family" = some (FVal.str "Arial") ∧
        dget (derefD σf f.title_font) "color" = some (FVal.str "black")) ∧
      (o.subtitle_font = none →
        dget (derefD σf f.subtitle_font) "family" = some (FVal.str "Arial") ∧
        dget (derefD σf f.subtitle_font) "color" = some (FVal.str "black")) ∧
      (o.axis_title_font = none →
        dget (derefD σf f.axis_title_font) "family" = some (FVal.str "Arial") ∧
        dget (derefD σf f.axis_title_font) "color" = some (FVal.str "black")) ∧
      (o.tick_font = none →
        dget (derefD σf f.tick_font) "family" = some (FVal.str "Arial") ∧
        dget (derefD σf f.tick_font) "color" = some (FVal.str "black")) ∧
      (o.legend_font = none →
        dget (derefD σf f.legend_font) "family" = some (FVal.str "Arial") ∧
        dget (derefD σf f.legend_font) "color" = some (FVal.str "black"))) ∧
    init { o with extra := e } σ0 = init o σ0 := by
  obtain ⟨σf, hσf⟩ := init_some o σ0 s hv hts
  obtain ⟨hd, _⟩ := init_inv o σ0 _ σf hσf
  refine ⟨⟨mkFormatter o (allocAll o σ0), σf, hσf,
    rfl, rfl, rfl, rfl, rfl, rfl, rfl, rfl, rfl, rfl, rfl,
    ?_, ?_, ?_, ?_, ?_, ?_, ?_, ?_, ?_, ?_⟩, rfl⟩
  · intro hr
    exact allocAll_tr_supplied o σ0 rt hr
  · intro hr
    exact allocAll_sr_supplied o σ0 rs hr
  · intro hr
    exact allocAll_ar_supplied o σ0 ra hr
  · intro hr
    exact allocAll_kr_supplied o σ0 rk hr
  · intro hr
    exact allocAll_lr_supplied o σ0 rl hr
  · intro hq
    have hst : (allocAll o σ0).st[(allocAll o σ0).tr]? = some defaultTitleFont := by
      rw [allocAll_st_tr o σ0 hv, hq]
      rfl
    obtain ⟨d', hd', hre⟩ :=
      deriveSizes_reach_any _ _ _ _ _ _ _ _ _ _ _ hd _ _ hst
    constructor
    · show dget (derefD σf (allocAll o σ0).tr) "family" = some (FVal.str "Arial")
      rw [derefD, hd']
      simp only [Option.getD_some]
      rw [reach_dget_ne _ _ _ (by decide) hre]
      rfl
    · show dget (derefD σf (allocAll o σ0).tr) "color" = some (FVal.str "black")
      rw [derefD, hd']
      simp only [Option.getD_some]
      rw [reach_dget_ne _ _ _ (by decide) hre]
      rfl
  · intro hq
    have hst : (allocAll o σ0).st[(allocAll o σ0).sr]? = some defaultAuxFont := by
      rw [allocAll_st_sr o σ0 hv, hq]
      rfl
    obtain ⟨d', hd', hre⟩ :=
      deriveSizes_reach_any _ _ _ _ _ _ _ _ _ _ _ hd _ _ hst
    constructor
    · show dget (derefD σf (allocAll o σ0).sr) "family" = some (FVal.str "Arial")
      rw [derefD, hd']
      simp only [Option.getD_some]
      rw [reach_dget_ne _ _ _ (by decide) hre]
      rfl
    · show dget (derefD σf (allocAll o σ0).sr) "color" = some (FVal.str "black")
      rw [derefD, hd']
      simp only [Option.getD_some]
      rw [reach_dget_ne _ _ _ (by decide) hre]
      rfl
  · intro hq
    have hst : (allocAll o σ0).st[(allocAll o σ0).ar]? = some defaultAuxFont := by
      rw [allocAll_st_ar o σ0 hv, hq]
      rfl
    obtain ⟨d', hd', hre⟩ :=
      deriveSizes_reach_any _ _ _ _ _ _ _ _ _ _ _ hd _ _ hst
    constructor
    · show dget (derefD σf (allocAll o σ0).ar) "family" = some (FVal.str "Arial")
      rw [derefD, hd']
      simp only [Option.getD_some]
      rw [reach_dget_ne _ _ _ (by decide) hre]
      rfl
    · show dget (derefD σf (allocAll o σ0).ar) "color" = some (FVal.str "black")
      rw [derefD, hd']
      simp only [Option.getD_some]
      rw [reach_dget_ne _ _ _ (by decide) hre]
      rfl
  · intro hq
    have hst : (allocAll o σ0).st[(allocAll o σ0).kr]? = some defaultAuxFont := by
      rw [allocAll_st_kr o σ0 hv, hq]
      rfl
    obtain ⟨d', hd', hre⟩ :=
      deriveSizes_reach_any _ _ _ _ _ _ _ _ _ _ _ hd _ _ hst
    constructor
    · show dget (derefD σf (allocAll o σ0).kr) "family" = some (FVal.str "Arial")
      rw [derefD, hd']
      simp only [Option.getD_some]
      rw [reach_dget_ne _ _ _ (by decide) hre]
      rfl
    · show dget (derefD σf (allocAll o σ0).kr) "color" = some (FVal.str "black")
      rw [derefD, hd']
      simp only [Option.getD_some]
      rw [reach_dget_ne _ _ _ (by decide) hre]
      rfl
  · intro hq
    have hst : (allocAll o σ0).st[(allocAll o σ0).lr]? = some defaultAuxFont := by
      rw [allocAll_st_lr o σ0 hv, hq]
      rfl
    obtain ⟨d', hd', hre⟩ :=
      deriveSizes_reach_any _ _ _ _ _ _ _ _ _ _ _ hd _ _ hst
    constructor
    · show dget (derefD σf (allocAll o σ0).lr) "family" = some (FVal.str "Arial")
      rw [derefD, hd']
      simp only [Option.getD_some]
      rw [reach_dget_ne _ _ _ (by decide) hre]
      rfl
    · show dget (derefD σf (allocAll o σ0).lr) "color" = some (FVal.str "black")
      rw [derefD, hd']
      simp only [Option.getD_some]
      rw [reach_dget_ne _ _ _ (by decide) hre]
      rfl

/-- Claim C8 (amended): if the five font mappings are pairwise distinct
objects, then for each of the four derived fonts supplied by the caller
(whether or not the mapping already contains a `size` entry), the stored
size is its own derived computation — a supplied size is never kept —
while supplied `family` and `color` entries are kept as given.
Distinctness is needed: when one dict is supplied for two options, a later
derivation overwrites the earlier size (the counterexample). -/
theorem C8_size_overwritten (o : Options) (σ0 : Store)
    (f : PlotlyFormatter) (σf : Store) (s : ℤ)
    (r1 r2 r3 r4 : ℕ) (m1 m2 m3 m4 : FontDict)
    (h : init o σ0 = some (f, σf))
    (hnd : ([f.title_font, f.subtitle_font, f.axis_title_font, f.tick_font,
      f.legend_font] : List ℕ).Nodup)
    (hv : ValidOpts o σ0)
    (hts : titleSizeInt o σ0 = some s) :
    (o.subtitle_font = some r1 → σ0[r1]? = some m1 →
      readSizeInt σf r1 = some (truncMul s (rq1 o)) ∧
      dget (derefD σf r1) "family" = dget m1 "family" ∧
      dget (derefD σf r1) "color" = dget m1 "color") ∧
    (o.axis_title_font = some r2 → σ0[r2]? = some m2 →
      readSizeInt σf r2 = some (truncMul s (rq2 o)) ∧
      dget (derefD σf r2) "family" = dget m2 "family" ∧
      dget (derefD σf r2) "color" = dget m2 "color") ∧
    (o.tick_font = some r3 → σ0[r3]? = some m3 →
      readSizeInt σf r3 = some (truncMul (truncMul s (rq2 o)) (rq3 o)) ∧
      dget (derefD σf r3) "family" = dget m3 "family" ∧
      dget (derefD σf r3) "color" = dget m3 "color") ∧
    (o.legend_font = some r4 → σ0[r4]? = some m4 →
      readSizeInt σf r4 = some (truncMul s (rq4 o)) ∧
      dget (derefD σf r4) "family" = dget m4 "family" ∧
      dget (derefD σf r4) "color" = dget m4 "color") := by
  obtain ⟨_, hf⟩ := init_inv o σ0 f σf h
  obtain ⟨e1, e2, e3, e4, e5⟩ := init_fonts_spec o σ0 f σf s h hnd hv hts
  refine ⟨?_, ?_, ?_, ?_⟩
  · intro hr hm
    have hfr : f.subtitle_font = r1 := by
      rw [hf]
      exact allocAll_sr_supplied o σ0 r1 hr
    rw [hfr, hr] at e2
    simp only [effFont] at e2
    rw [hm] at e2
    simp only [Option.map_some'] at e2
    refine ⟨?_, ?_, ?_⟩
    · rw [readSizeInt, e2]
      simp [getIntSize_dset_size]
    · rw [derefD, e2]
      simp only [Option.getD_some]
      exact dget_dset_size_ne m1 "family" _ (by decide)
    · rw [derefD, e2]
      simp only [Option.getD_some]
      exact dget_dset_size_ne m1 "color" _ (by decide)
  · intro hr hm
    have hfr : f.axis_title_font = r2 := by
      rw [hf]
      exact allocAll_ar_supplied o σ0 r2 hr
    rw [hfr, hr] at e3
    simp only [effFont] at e3
    rw [hm] at e3
    simp only [Option.map_some'] at e3
    refine ⟨?_, ?_, ?_⟩
    · rw [readSizeInt, e3]
      simp [getIntSize_dset_size]
    · rw [derefD, e3]
      simp only [Option.getD_some]
      exact dget_dset_size_ne m2 "family" _ (by decide)
    · rw [derefD, e3]
      simp only [Option.getD_some]
      exact dget_dset_size_ne m2 "color" _ (by decide)
  · intro hr hm
    have hfr : f.tick_font = r3 := by
      rw [hf]
      exact allocAll_kr_supplied o σ0 r3 hr
    rw [hfr, hr] at e4
    simp only [effFont] at e4
    rw [hm] at e4
    simp only [Option.map_some'] at e4
    refine ⟨?_, ?_, ?_⟩
    · rw [readSizeInt, e4]
      simp [getIntSize_dset_size]
    · rw [derefD, e4]
      simp only [Option.getD_some]
      exact dget_dset_size_ne m3 "family" _ (by decide)
    · rw [derefD, e4]
      simp only [Option.getD_some]
      exact dget_dset_size_ne m3 "color" _ (by decide)
  · intro hr hm
    have hfr : f.legend_font = r4 := by
      rw [hf]
      exact allocAll_lr_supplied o σ0 r4 hr
    rw [hfr, hr] at e5
    simp only [effFont] at e5
    rw [hm] at e5
    simp only [Option.map_some'] at e5
    refine ⟨?_, ?_, ?_⟩
    · rw [readSizeInt, e5]
      simp [getIntSize_dset_size]
    · rw [derefD, e5]
      simp only [Option.getD_some]
      exact dget_dset_size_ne m4 "family" _ (by decide)
    · rw [derefD, e5]
      simp only [Option.getD_some]
      exact dget_dset_size_ne m4 "color" _ (by decide)

/-- Claim C10 (amended): if the five font mappings are pairwise distinct
objects, a caller-supplied mapping `m` for any of the four derived fonts
is itself mutated by construction: afterwards the heap cell the caller's
reference points at holds exactly `m` with its `size` entry set to the
derived value, every other entry unchanged.  Distinctness is needed: with
one dict supplied for two options the final size is the later
derivation's, not this font's own (the counterexample). -/
theorem C10_caller_mapping_mutated (o : Options) (σ0 : Store)
    (f : PlotlyFormatter) (σf : Store) (s : ℤ)
    (r1 r2 r3 r4 : ℕ) (m1 m2 m3 m4 : FontDict)
    (h : init o σ0 = some (f, σf))
    (hnd : ([f.title_font, f.subtitle_font, f.axis_title_font, f.tick_font,
      f.legend_font] : List ℕ).Nodup)
    (hv : ValidOpts o σ0)
    (hts : titleSizeInt o σ0 = some s) :
    (o.subtitle_font = some r1 → σ0[r1]? = some m1 →
      σf[r1]? = some (dset m1 "size" (FVal.int (truncMul s (rq1 o))))) ∧
    (o.axis_title_font = some r2 → σ0[r2]? = some m2 →
      σf[r2]? = some (dset m2 "size" (FVal.int (truncMul s (rq2 o))))) ∧
    (o.tick_font = some r3 → σ0[r3]? = some m3 →
      σf[r3]? = some (dset m3 "size"
        (FVal.int (truncMul (truncMul s (rq2 o)) (rq3 o))))) ∧
    (o.legend_font = some r4 → σ0[r4]? = some m4 →
      σf[r4]? = some (dset m4 "size" (FVal.int (truncMul s (rq4 o))))) := by
  obtain ⟨_, hf⟩ := init_inv o σ0 f σf h
  obtain ⟨e1, e2, e3, e4, e5⟩ := init_fonts_spec o σ0 f σf s h hnd hv hts
  refine ⟨?_, ?_, ?_, ?_⟩
  · intro hr hm
    have hfr : f.subtitle_font = r1 := by
      rw [hf]
      exact allocAll_sr_supplied o σ0 r1 hr
    rw [hfr, hr] at e2
    simp only [effFont] at e2
    rw [hm] at e2
    simpa using e2
  · intro hr hm
    have hfr : f.axis_title_font = r2 := by
      rw [hf]
      exact allocAll_ar_supplied o σ0 r2 hr
    rw [hfr, hr] at e3
    simp only [effFont] at e3
    rw [hm] at e3
    simpa using e3
  · intro hr hm
    have hfr : f.tick_font = r3 := by
      rw [hf]
      exact allocAll_kr_supplied o σ0 r3 hr
    rw [hfr, hr] at e4
    simp only [effFont] at e4
    rw [hm] at e4
    simpa using e4
  · intro hr hm
    have hfr : f.legend_font = r4 := by
      rw [hf]
      exact allocAll_lr_supplied o σ0 r4 hr
    rw [hfr, hr] at e5
    simp only [effFont] at e5
    rw [hm] at e5
    simpa using e5

/-- Claim C9: a supplied font mapping replaces the whole default, not
individual fields.  For every successful construction and every
caller-supplied font mapping `m`: the stored dict keeps exactly `m`'s
keys — plus `"size"` for the four derived fonts, whose derived size is
appended when missing — with every non-`size` entry (in particular
`family` and `color`) exactly as supplied; the defaults `Arial`/`black`
are never merged in for missing fields.  This holds even when mappings
alias each other. -/
theorem C9_font_replacement (o : Options) (σ0 : Store)
    (f : PlotlyFormatter) (σf : Store)
    (r0 r1 r2 r3 r4 : ℕ) (m0 m1 m2 m3 m4 : FontDict)
    (h : init o σ0 = some (f, σf)) :
    (o.title_font = some r0 → σ0[r0]? = some m0 →
      ∃ d', σf[r0]? = some d' ∧
        dget d' "family" = dget m0 "family" ∧
        dget d' "color" = dget m0 "color" ∧
        dkeys d' = dkeys m0) ∧
    (o.subtitle_font = some r1 → σ0[r1]? = some m1 →
      ∃ d', σf[r1]? = some d' ∧
        dget d' "family" = dget m1 "family" ∧
        dget d' "color" = dget m1 "color" ∧
        (∃ n : ℤ, dget d' "size" = some (FVal.int n)) ∧
        dkeys d' = (if "size" ∈ dkeys m1 then dkeys m1 else dkeys m1 ++ ["size"])) ∧
    (o.axis_title_font = some r2 → σ0[r2]? = some m2 →
      ∃ d', σf[r2]? = some d' ∧
        dget d' "family" = dget m2 "family" ∧
        dget d' "color" = dget m2 "color" ∧
        (∃ n : ℤ, dget d' "size" = some (FVal.int n)) ∧
        dkeys d' = (if "size" ∈ dkeys m2 then dkeys m2 else dkeys m2 ++ ["size"])) ∧
    (o.tick_font = some r3 → σ0[r3]? = some m3 →
      ∃ d', σf[r3]? = some d' ∧
        dget d' "family" = dget m3 "family" ∧
        dget d' "color" = dget m3 "color" ∧
        (∃ n : ℤ, dget d' "size" = some (FVal.int n)) ∧
        dkeys d' = (if "size" ∈ dkeys m3 then dkeys m3 else dkeys m3 ++ ["size"])) ∧
    (o.legend_font = some r4 → σ0[r4]? = some m4 →
      ∃ d', σf[r4]? = some d' ∧
        dget d' "family" = dget m4 "family" ∧
        dget d' "color" = dget m4 "color" ∧
        (∃ n : ℤ, dget d' "size" = some (FVal.int n)) ∧
        dkeys d' = (if "size" ∈ dkeys m4 then dkeys m4 else dkeys m4 ++ ["size"])) := by
  obtain ⟨hd, hf⟩ := init_inv o σ0 f σf h
  obtain ⟨s0, _s1, _a2, _s3, hs0, _, _, _, _⟩ := deriveSizes_eq _ _ _ _ _ _ _ _ _ _ _ hd
  refine ⟨?_, ?_, ?_, ?_, ?_⟩
  · intro ht hm
    have hlt : r0 < σ0.length := (List.getElem?_eq_some_iff.mp hm).1
    have hst : (allocAll o σ0).st[r0]? = some m0 := by
      rw [allocAll_st_low o σ0 r0 hlt]
      exact hm
    have htr : (allocAll o σ0).tr = r0 := allocAll_tr_supplied o σ0 r0 ht
    have hgs : getIntSize m0 = some s0 := by
      rw [readSizeInt, htr, hst] at hs0
      simpa using hs0
    have hmem : "size" ∈ dkeys m0 :=
      mem_dkeys_of_dget m0 "size" _ (dget_of_getIntSize m0 s0 hgs)
    obtain ⟨d', hd', hre⟩ :=
      deriveSizes_reach_any _ _ _ _ _ _ _ _ _ _ _ hd r0 m0 hst
    refine ⟨d', hd',
      reach_dget_ne m0 d' "family" (by decide) hre,
      reach_dget_ne m0 d' "color" (by decide) hre, ?_⟩
    rcases hre with hre | ⟨n, hre⟩
    · rw [hre]
    · rw [hre]
      exact dkeys_dset_mem m0 "size" _ hmem
  · intro hr hm
    have hlt : r1 < σ0.length := (List.getElem?_eq_some_iff.mp hm).1
    have hst : (allocAll o σ0).st[r1]? = some m1 := by
      rw [allocAll_st_low o σ0 r1 hlt]
      exact hm
    have hsr : (allocAll o σ0).sr = r1 := allocAll_sr_supplied o σ0 r1 hr
    obtain ⟨n, hn⟩ := deriveSizes_writes _ _ _ _ _ _ _ _ _ _ _ hd r1 m1 hst
      (Or.inl hsr.symm)
    refine ⟨dset m1 "size" (FVal.int n), hn,
      dget_dset_size_ne m1 "family" n (by decide),
      dget_dset_size_ne m1 "color" n (by decide),
      ⟨n, dget_dset_self m1 "size" _⟩, ?_⟩
    by_cases hmem : "size" ∈ dkeys m1
    · rw [if_pos hmem]
      exact dkeys_dset_mem m1 "size" _ hmem
    · rw [if_neg hmem]
      exact dkeys_dset_not_mem m1 "size" _ hmem
  · intro hr hm
    have hlt : r2 < σ0.length := (List.getElem?_eq_some_iff.mp hm).1
    have hst : (allocAll o σ0).st[r2]? = some m2 := by
      rw [allocAll_st_low o σ0 r2 hlt]
      exact hm
    have har : (allocAll o σ0).ar = r2 := allocAll_ar_supplied o σ0 r2 hr
    obtain ⟨n, hn⟩ := deriveSizes_writes _ _ _ _ _ _ _ _ _ _ _ hd r2 m2 hst
      (Or.inr (Or.inl har.symm))
    refine ⟨dset m2 "size" (FVal.int n), hn,
      dget_dset_size_ne m2 "family" n (by decide),
      dget_dset_size_ne m2 "color" n (by decide),
      ⟨n, dget_dset_self m2 "size" _⟩, ?_⟩
    by_cases hmem : "size" ∈ dkeys m2
    · rw [if_pos hmem]
      exact dkeys_dset_mem m2 "size" _ hmem
    · rw [if_neg hmem]
      exact dkeys_dset_not_mem m2 "size" _ hmem
  · intro hr hm
    have hlt : r3 < σ0.length := (List.getElem?_eq_some_iff.mp hm).1
    have hst : (allocAll o σ0).st[r3]? = some m3 := by
      rw [allocAll_st_low o σ0 r3 hlt]
      exact hm
    have hkr : (allocAll o σ0).kr = r3 := allocAll_kr_supplied o σ0 r3 hr
    obtain ⟨n, hn⟩ := deriveSizes_writes _ _ _ _ _ _ _ _ _ _ _ hd r3 m3 hst
      (Or.inr (Or.inr (Or.inl hkr.symm)))
    refine ⟨dset m3 "size" (FVal.int n), hn,
      dget_dset_size_ne m3 "family" n (by decide),
      dget_dset_size_ne m3 "color" n (by decide),
      ⟨n, dget_dset_self m3 "size" _⟩, ?_⟩
    by_cases hmem : "size" ∈ dkeys m3
    · rw [if_pos hmem]
      exact dkeys_dset_mem m3 "size" _ hmem
    · rw [if_neg hmem]
      exact dkeys_dset_not_mem m3 "size" _ hmem
  · intro hr hm
    have hlt : r4 < σ0.length := (List.getElem?_eq_some_iff.mp hm).1
    have hst : (allocAll o σ0).st[r4]? = some m4 := by
      rw [allocAll_st_low o σ0 r4 hlt]
      exact hm
    have hlr : (allocAll o σ0).lr = r4 := allocAll_lr_supplied o σ0 r4 hr
    obtain ⟨n, hn⟩ := deriveSizes_writes _ _ _ _ _ _ _ _ _ _ _ hd r4 m4 hst
      (Or.inr (Or.inr (Or.inr hlr.symm)))
    refine ⟨dset m4 "size" (FVal.int n), hn,
      dget_dset_size_ne m4 "family" n (by decide),
      dget_dset_size_ne m4 "color" n (by decide),
      ⟨n, dget_dset_self m4 "size" _⟩, ?_⟩
    by_cases hmem : "size" ∈ dkeys m4
    · rw [if_pos hmem]
      exact dkeys_dset_mem m4 "size" _ hmem
    · rw [if_neg hmem]
      exact dkeys_dset_not_mem m4 "size" _ hmem

/-- Witness for C1 (amended): default construction, title size 24. -/
theorem C1_derived_sizes_sequence_witness :
    init optsNone [] = some (fmt0, storeFin0) ∧
    ([fmt0.title_font, fmt0.subtitle_font, fmt0.axis_title_font,
      fmt0.tick_font, fmt0.legend_font] : List ℕ).Nodup ∧
    ValidOpts optsNone [] ∧
    titleSizeInt optsNone [] = some 24 ∧
    (readSizeInt storeFin0 fmt0.subtitle_font =
        some (truncMul 24 (rq1 optsNone)) ∧
      readSizeInt storeFin0 fmt0.axis_title_font =
        some (truncMul 24 (rq2 optsNone)) ∧
      readSizeInt storeFin0 fmt0.tick_font =
        (readSizeInt storeFin0 fmt0.axis_title_font).map
          (fun a => truncMul a (rq3 optsNone)) ∧
      readSizeInt storeFin0 fmt0.legend_font =
        some (truncMul 24 (rq4 optsNone))) :=
  ⟨by decide, by decide, by decide, by decide,
   C1_derived_sizes_sequence optsNone [] fmt0 storeFin0 24
     (by decide) (by decide) (by decide) (by decide)⟩

/-- Witness for C3 (amended): default construction plus one `standardize`
call on a concrete figure. -/
theorem C3_truncation_invariant_witness :
    init optsNone [] = some (fmt0, storeFin0) ∧
    ([fmt0.title_font, fmt0.subtitle_font, fmt0.axis_title_font,
      fmt0.tick_font, fmt0.legend_font] : List ℕ).Nodup ∧
    ValidOpts optsNone [] ∧
    titleSizeInt optsNone [] = some 24 ∧
    (readSizeInt storeFin0 fmt0.subtitle_font =
        some (truncMul 24 (rq1 optsNone)) ∧
      readSizeInt storeFin0 fmt0.axis_title_font =
        some (truncMul 24 (rq2 optsNone)) ∧
      readSizeInt storeFin0 fmt0.tick_font =
        some (truncMul (truncMul 24 (rq2 optsNone)) (rq3 optsNone)) ∧
      readSizeInt storeFin0 fmt0.legend_font =
        some (truncMul 24 (rq4 optsNone)) ∧
      (standardize fmt0 storeFin0 fig1).1 = fmt0 ∧
      (standardize fmt0 storeFin0 fig1).2.1 = storeFin0) :=
  ⟨by decide, by decide, by decide, by decide,
   C3_truncation_invariant optsNone [] fmt0 storeFin0 24 fig1
     (by decide) (by decide) (by decide) (by decide)⟩

/-- Witness for C5: a figure with two layout text elements. -/
theorem C5_annotation_fonts_witness :
    fig1.anns = some ([⟨[("k", FVal.str "v")], "a1"⟩, ⟨[], "a2"⟩] : List Ann) ∧
    ((standardize fmt0 storeFin0 fig1).2.2.anns =
      some (([⟨[("k", FVal.str "v")], "a1"⟩, ⟨[], "a2"⟩] : List Ann).map
        (setAnnFont (derefD storeFin0 fmt0.subtitle_font))) ∧
    (([⟨[("k", FVal.str "v")], "a1"⟩, ⟨[], "a2"⟩] : List Ann).map
      (setAnnFont (derefD storeFin0 fmt0.subtitle_font))).length =
      ([⟨[("k", FVal.str "v")], "a1"⟩, ⟨[], "a2"⟩] : List Ann).length ∧
    (([⟨[("k", FVal.str "v")], "a1"⟩, ⟨[], "a2"⟩] : List Ann).map
      (setAnnFont (derefD storeFin0 fmt0.subtitle_font))).map Ann.font =
      List.replicate ([⟨[("k", FVal.str "v")], "a1"⟩, ⟨[], "a2"⟩] : List Ann).length
        (derefD storeFin0 fmt0.subtitle_font)) :=
  ⟨rfl, C5_annotation_fonts fmt0 storeFin0 fig1
    ([⟨[("k", FVal.str "v")], "a1"⟩, ⟨[], "a2"⟩] : List Ann) rfl⟩

/-- Witness for C6: `title_x = 0.25` against `title_x = 0.75`. -/
theorem C6_title_x_no_effect_witness :
    init { optsNone with title_x := some (mkRat 1 4) } [] =
      some (w6f1, storeFin0) ∧
    init { optsNone with title_x := some (mkRat 3 4) } [] =
      some (w6f2, storeFin0) ∧
    (standardize w6f1 storeFin0 fig1).2.2 =
      (standardize w6f2 storeFin0 fig1).2.2 :=
  ⟨by decide, by decide,
   C6_title_x_no_effect optsNone (some (mkRat 1 4)) (some (mkRat 3 4)) []
     fig1 w6f1 w6f2 storeFin0 storeFin0 (by decide) (by decide)⟩

/-- Witness for C7 (amended): no options, one unrecognised key. -/
theorem C7_option_resolution_witness :
    ValidOpts optsNone [] ∧
    titleSizeInt optsNone [] = some 24 ∧
    ((∃ f σf, init optsNone [] = some (f, σf) ∧
      f.subtitle_ratio = optsNone.subtitle_ratio.getD (mkRat 19 20) ∧
      f.axis_title_ratio = optsNone.axis_title_ratio.getD (mkRat 9 10) ∧
      f.tick_font_ratio = optsNone.tick_font_ratio.getD (mkRat 9 10) ∧
      f.legend_font_ratio = optsNone.legend_font_ratio.getD (mkRat 9 10) ∧
      f.showgrid = optsNone.showgrid.getD true ∧
      f.gridcolor = optsNone.gridcolor.getD "LightGray" ∧
      f.gridwidth = optsNone.gridwidth.getD 1 ∧
      f.template = optsNone.template.getD "simple_white" ∧
      f.title_x = optsNone.title_x.getD (mkRat 1 2) ∧
      f.width = optsNone.width.getD 3200 ∧
      f.height = optsNone.height.getD 800 ∧
      (optsNone.title_font = some 0 → f.title_font = 0) ∧
      (optsNone.subtitle_font = some 0 → f.subtitle_font = 0) ∧
      (optsNone.axis_title_font = some 0 → f.axis_title_font = 0) ∧
      (optsNone.tick_font = some 0 → f.tick_font = 0) ∧
      (optsNone.legend_font = some 0 → f.legend_font = 0) ∧
      (optsNone.title_font = none →
        dget (derefD σf f.title_font) "family" = some (FVal.str "Arial") ∧
        dget (derefD σf f.title_font) "color" = some (FVal.str "black")) ∧
      (optsNone.subtitle_font = none →
        dget (derefD σf f.subtitle_font) "family" = some (FVal.str "Arial") ∧
        dget (derefD σf f.subtitle_font) "color" = some (FVal.str "black")) ∧
      (optsNone.axis_title_font = none →
        dget (derefD σf f.axis_title_font) "family" = some (FVal.str "Arial") ∧
        dget (derefD σf f.axis_title_font) "color" = some (FVal.str "black")) ∧
      (optsNone.tick_font = none →
        dget (derefD σf f.tick_font) "family" = some (FVal.str "Arial") ∧
        dget (derefD σf f.tick_font) "color" = some (FVal.str "black")) ∧
      (optsNone.legend_font = none →
        dget (derefD σf f.legend_font) "family" = some (FVal.str "Arial") ∧
        dget (derefD σf f.legend_font) "color" = some (FVal.str "black"))) ∧
    init { optsNone with extra := [("zzz", FVal.int 1)] } [] =
      init optsNone []) :=
  ⟨by decide, by decide,
   C7_option_resolution optsNone [] 24 0 0 0 0 0 [("zzz", FVal.int 1)]
     (by decide) (by decide)⟩

/-- Witness for C8 (amended): a supplied tick font with a size entry. -/
theorem C8_size_overwritten_witness :
    init w8opts w8store = some (w8fmt, w8fin) ∧
    ([w8fmt.title_font, w8fmt.subtitle_font, w8fmt.axis_title_font,
      w8fmt.tick_font, w8fmt.legend_font] : List ℕ).Nodup ∧
    ValidOpts w8opts w8store ∧
    titleSizeInt w8opts w8store = some 24 ∧
    ((w8opts.subtitle_font = some 0 → w8store[0]? = some [] →
      readSizeInt w8fin 0 = some (truncMul 24 (rq1 w8opts)) ∧
      dget (derefD w8fin 0) "family" = dget [] "family" ∧
      dget (derefD w8fin 0) "color" = dget [] "color") ∧
    (w8opts.axis_title_font = some 0 → w8store[0]? = some [] →
      readSizeInt w8fin 0 = some (truncMul 24 (rq2 w8opts)) ∧
      dget (derefD w8fin 0) "family" = dget [] "family" ∧
      dget (derefD w8fin 0) "color" = dget [] "color") ∧
    (w8opts.tick_font = some 0 →
      w8store[0]? = some [("size", FVal.int 5), ("color", FVal.str "blue")] →
      readSizeInt w8fin 0 =
        some (truncMul (truncMul 24 (rq2 w8opts)) (rq3 w8opts)) ∧
      dget (derefD w8fin 0) "family" =
        dget [("size", FVal.int 5), ("color", FVal.str "blue")] "family" ∧
      dget (derefD w8fin 0) "color" =
        dget [("size", FVal.int 5), ("color", FVal.str "blue")] "color") ∧
    (w8opts.legend_font = some 0 → w8store[0]? = some [] →
      readSizeInt w8fin 0 = some (truncMul 24 (rq4 w8opts)) ∧
      dget (derefD w8fin 0) "family" = dget [] "family" ∧
      dget (derefD w8fin 0) "color" = dget [] "color")) :=
  ⟨by decide, by decide, by decide, by decide,
   C8_size_overwritten w8opts w8store w8fmt w8fin 24 0 0 0 0
     [] [] [("size", FVal.int 5), ("color", FVal.str "blue")] []
     (by decide) (by decide) (by decide) (by decide)⟩

/-- Witness for C10 (amended): a supplied subtitle font, mutated in place. -/
theorem C10_caller_mapping_mutated_witness :
    init w10opts w10store = some (w10fmt, w10fin) ∧
    ([w10fmt.title_font, w10fmt.subtitle_font, w10fmt.axis_title_font,
      w10fmt.tick_font, w10fmt.legend_font] : List ℕ).Nodup ∧
    ValidOpts w10opts w10store ∧
    titleSizeInt w10opts w10store = some 24 ∧
    ((w10opts.subtitle_font = some 0 →
      w10store[0]? = some [("size", FVal.int 7), ("family", FVal.str "X")] →
      w10fin[0]? = some (dset [("size", FVal.int 7), ("family", FVal.str "X")]
        "size" (FVal.int (truncMul 24 (rq1 w10opts))))) ∧
    (w10opts.axis_title_font = some 0 → w10store[0]? = some [] →
      w10fin[0]? = some (dset [] "size"
        (FVal.int (truncMul 24 (rq2 w10opts))))) ∧
    (w10opts.tick_font = some 0 → w10store[0]? = some [] →
      w10fin[0]? = some (dset [] "size"
        (FVal.int (truncMul (truncMul 24 (rq2 w10opts)) (rq3 w10opts))))) ∧
    (w10opts.legend_font = some 0 → w10store[0]? = some [] →
      w10fin[0]? = some (dset [] "size"
        (FVal.int (truncMul 24 (rq4 w10opts)))))) :=
  ⟨by decide, by decide, by decide, by decide,
   C10_caller_mapping_mutated w10opts w10store w10fmt w10fin 24 0 0 0 0
     [("size", FVal.int 7), ("family", FVal.str "X")] [] [] []
     (by decide) (by decide) (by decide) (by decide)⟩

/-- Witness for C9: `title_font={"size": 30}` — the stored title font
keeps exactly the one supplied key; no `Arial`/`black` is merged in. -/
theorem C9_font_replacement_witness :
    init w9opts w9store = some (fmt0, w9fin) ∧
    ((w9opts.title_font = some 0 →
      w9store[0]? = some [("size", FVal.int 30)] →
      ∃ d', w9fin[0]? = some d' ∧
        dget d' "family" = dget [("size", FVal.int 30)] "family" ∧
        dget d' "color" = dget [("size", FVal.int 30)] "color" ∧
        dkeys d' = dkeys [("size", FVal.int 30)]) ∧
    (w9opts.subtitle_font = some 0 → w9store[0]? = some [] →
      ∃ d', w9fin[0]? = some d' ∧
        dget d' "family" = dget [] "family" ∧
        dget d' "color" = dget [] "color" ∧
        (∃ n : ℤ, dget d' "size" = some (FVal.int n)) ∧
        dkeys d' = (if "size" ∈ dkeys ([] : FontDict) then dkeys ([] : FontDict)
          else dkeys ([] : FontDict) ++ ["size"])) ∧
    (w9opts.axis_title_font = some 0 → w9store[0]? = some [] →
      ∃ d', w9fin[0]? = some d' ∧
        dget d' "family" = dget [] "family" ∧
        dget d' "color" = dget [] "color" ∧
        (∃ n : ℤ, dget d' "size" = some (FVal.int n)) ∧
        dkeys d' = (if "size" ∈ dkeys ([] : FontDict) then dkeys ([] : FontDict)
          else dkeys ([] : FontDict) ++ ["size"])) ∧
    (w9opts.tick_font = some 0 → w9store[0]? = some [] →
      ∃ d', w9fin[0]? = some d' ∧
        dget d' "family" = dget [] "family" ∧
        dget d' "color" = dget [] "color" ∧
        (∃ n : ℤ, dget d' "size" = some (FVal.int n)) ∧
        dkeys d' = (if "size" ∈ dkeys ([] : FontDict) then dkeys ([] : FontDict)
          else dkeys ([] : FontDict) ++ ["size"])) ∧
    (w9opts.legend_font = some 0 → w9store[0]? = some [] →
      ∃ d', w9fin[0]? = some d' ∧
        dget d' "family" = dget [] "family" ∧
        dget d' "color" = dget [] "color" ∧
        (∃ n : ℤ, dget d' "size" = some (FVal.int n)) ∧
        dkeys d' = (if "size" ∈ dkeys ([] : FontDict) then dkeys ([] : FontDict)
          else dkeys ([] : FontDict) ++ ["size"]))) :=
  ⟨by decide,
   C9_font_replacement w9opts w9store fmt0 w9fin 0 0 0 0 0
     [("size", FVal.int 30)] [] [] [] [] (by decide)⟩
